import Mathlib

/-!
Verification development for the semantic response cache middleware
(`createSemanticCache`, prompt variant) and `createIntentMemory`
(intent variant).  The definitions below are shallow embeddings of the
TypeScript source: pure helper functions become Lean functions, the
stateful write-back becomes an explicit operation trace, remote-store
outcomes become explicit parameters, and JavaScript values relevant to
fingerprinting become an inductive JSON-like type.
-/

/-! ## SHA-256 (the `sha` helper, `crypto.createHash("sha256") … digest("hex")`)

Bytes and 32-bit words are represented as `Nat` with explicit reduction
modulo `2 ^ 32`. -/

def add32 (a b : Nat) : Nat := (a + b) % 4294967296

def rotr32 (n x : Nat) : Nat := (x / 2 ^ n + (x % 2 ^ n) * 2 ^ (32 - n)) % 4294967296

def shr32 (n x : Nat) : Nat := x / 2 ^ n

def xor32 (a b : Nat) : Nat := Nat.xor a b

def and32 (a b : Nat) : Nat := Nat.land a b

def not32 (a : Nat) : Nat := Nat.xor a 4294967295

def sha256K : List Nat :=
  [1116352408, 1899447441, 3049323471, 3921009573, 961987163, 1508970993, 2453635748,
   2870763221, 3624381080, 310598401, 607225278, 1426881987, 1925078388, 2162078206,
   2614888103, 3248222580, 3835390401, 4022224774, 264347078, 604807628, 770255983, 1249150122,
   1555081692, 1996064986, 2554220882, 2821834349, 2952996808, 3210313671, 3336571891,
   3584528711, 113926993, 338241895, 666307205, 773529912, 1294757372, 1396182291, 1695183700,
   1986661051, 2177026350, 2456956037, 2730485921, 2820302411, 3259730800, 3345764771,
   3516065817, 3600352804, 4094571909, 275423344, 430227734, 506948616, 659060556, 883997877,
   958139571, 1322822218, 1537002063, 1747873779, 1955562222, 2024104815, 2227730452,
   2361852424, 2428436474, 2756734187, 3204031479, 3329325298]

structure Hash8 where
  a : Nat
  b : Nat
  c : Nat
  d : Nat
  e : Nat
  f : Nat
  g : Nat
  h : Nat

def sha256H0 : Hash8 :=
  ⟨1779033703, 3144134277, 1013904242, 2773480762, 1359893119, 2600822924, 528734635, 1541459225⟩

def wordsOfBlock : List Nat → List Nat
  | b0 :: b1 :: b2 :: b3 :: rest => (((b0 * 256 + b1) * 256 + b2) * 256 + b3) :: wordsOfBlock rest
  | _ => []

def smallSigma0 (x : Nat) : Nat := xor32 (xor32 (rotr32 7 x) (rotr32 18 x)) (shr32 3 x)

def smallSigma1 (x : Nat) : Nat := xor32 (xor32 (rotr32 17 x) (rotr32 19 x)) (shr32 10 x)

def bigSigma0 (x : Nat) : Nat := xor32 (xor32 (rotr32 2 x) (rotr32 13 x)) (rotr32 22 x)

def bigSigma1 (x : Nat) : Nat := xor32 (xor32 (rotr32 6 x) (rotr32 11 x)) (rotr32 25 x)

def extendSchedule : List Nat → Nat → List Nat
  | ws, 0 => ws
  | ws, Nat.succ k =>
    let i := ws.length
    let w := add32 (add32 (ws.getD (i - 16) 0) (smallSigma0 (ws.getD (i - 15) 0)))
                   (add32 (ws.getD (i - 7) 0) (smallSigma1 (ws.getD (i - 2) 0)))
    extendSchedule (ws ++ [w]) k

def compressStep (st : Hash8) (kw : Nat × Nat) : Hash8 :=
  let ch := xor32 (and32 st.e st.f) (and32 (not32 st.e) st.g)
  let temp1 := add32 st.h (add32 (bigSigma1 st.e) (add32 ch (add32 kw.1 kw.2)))
  let maj := xor32 (xor32 (and32 st.a st.b) (and32 st.a st.c)) (and32 st.b st.c)
  let temp2 := add32 (bigSigma0 st.a) maj
  ⟨add32 temp1 temp2, st.a, st.b, st.c, add32 st.d temp1, st.e, st.f, st.g⟩

def processBlock (hv : Hash8) (block : List Nat) : Hash8 :=
  let w := extendSchedule (wordsOfBlock block) 48
  let st := (sha256K.zip w).foldl compressStep hv
  ⟨add32 hv.a st.a, add32 hv.b st.b, add32 hv.c st.c, add32 hv.d st.d,
   add32 hv.e st.e, add32 hv.f st.f, add32 hv.g st.g, add32 hv.h st.h⟩

def bytesBE (n x : Nat) : List Nat :=
  (List.range n).map (fun i => x / 2 ^ (8 * (n - 1 - i)) % 256)

def padMessage (msg : List Nat) : List Nat :=
  let zeros := (64 - (msg.length + 9) % 64) % 64
  msg ++ [128] ++ List.replicate zeros 0 ++ bytesBE 8 (msg.length * 8)

def toBlocks : List Nat → List (List Nat)
  | [] => []
  | b :: rest => (b :: rest).take 64 :: toBlocks ((b :: rest).drop 64)
termination_by l => l.length
decreasing_by
  simp only [List.length_drop, List.length_cons]
  omega

def sha256Bytes (msg : List Nat) : List Nat :=
  let hv := (toBlocks (padMessage msg)).foldl processBlock sha256H0
  [hv.a, hv.b, hv.c, hv.d, hv.e, hv.f, hv.g, hv.h].flatMap (bytesBE 4)

/-- UTF-8 encoding of one code point, as the byte list `update` hashes. -/
def utf8Char (c : Char) : List Nat :=
  let n := c.toNat
  if n < 128 then [n]
  else if n < 2048 then [192 + n / 64, 128 + n % 64]
  else if n < 65536 then [224 + n / 4096, 128 + n / 64 % 64, 128 + n % 64]
  else [240 + n / 262144, 128 + n / 4096 % 64, 128 + n / 64 % 64, 128 + n % 64]

def utf8Bytes (s : String) : List Nat := s.data.flatMap utf8Char

def hexDigitChar (n : Nat) : Char := if n < 10 then Char.ofNat (48 + n) else Char.ofNat (87 + n)

def byteToHex (b : Nat) : List Char := [hexDigitChar (b / 16), hexDigitChar (b % 16)]

/-- `sha` from the source: hex SHA-256 digest of a string
(`crypto.createHash("sha256").update(s).digest("hex")`). -/
def sha (s : String) : String := String.mk ((sha256Bytes (utf8Bytes s)).flatMap byteToHex)

/-! ## Normalization (`norm = s.trim().toLowerCase().replace(/\s+/g, " ")`)

`jsWhitespace` is the character class shared by JavaScript's
`String.prototype.trim` (WhiteSpace ∪ LineTerminator) and the regular
expression class `\s`; the two sets coincide.

`String.prototype.toLowerCase` is the Unicode Default Case Conversion
toLowercase: the simple lowercase mappings of the Unicode Character
Database (version 14.0) plus the single unconditional SpecialCasing
entry U+0130 → U+0069 U+0307 (the one length-changing mapping),
tabulated below, together with the conditional Final_Sigma rule:
U+03A3 maps to U+03C2 when its context in the original text satisfies
Final_Sigma, else to the default U+03C3.  The Final_Sigma context test
(a predicate over the surrounding text, defined by the Cased and
Case_Ignorable classes) is kept as an explicit parameter `sigmaCtx`;
every theorem about `norm` below holds for every context test, in
particular the Unicode one.  Locale tailorings (tr/az/lt) are not
applied by `toLowerCase` and are not modelled.  The table is split into
chunks with a range-guided lookup so that the facts about it can be
evaluated by the kernel. -/

def jsWhitespace (c : Char) : Bool :=
  [9, 10, 11, 12, 13, 32, 160, 0x1680, 0x2028, 0x2029, 0x202F, 0x205F, 0x3000, 0xFEFF].contains c.toNat
    || (Nat.ble 0x2000 c.toNat && Nat.ble c.toNat 0x200A)

def lowerChunk0 : List (Char × List Char) :=
  [ ('A', ['a']), ('B', ['b']), ('C', ['c']), ('D', ['d']), ('E', ['e']), ('F', ['f']),
   ('G', ['g']), ('H', ['h']), ('I', ['i']), ('J', ['j']), ('K', ['k']), ('L', ['l']),
   ('M', ['m']), ('N', ['n']), ('O', ['o']), ('P', ['p']), ('Q', ['q']), ('R', ['r']),
   ('S', ['s']), ('T', ['t']), ('U', ['u']), ('V', ['v']), ('W', ['w']), ('X', ['x']),
   ('Y', ['y']), ('Z', ['z']), ('À', ['à']), ('Á', ['á']), ('Â', ['â']), ('Ã', ['ã']),
   ('Ä', ['ä']), ('Å', ['å'])]

def lowerChunk1 : List (Char × List Char) :=
  [ ('Æ', ['æ']), ('Ç', ['ç']), ('È', ['è']), ('É', ['é']), ('Ê', ['ê']), ('Ë', ['ë']),
   ('Ì', ['ì']), ('Í', ['í']), ('Î', ['î']), ('Ï', ['ï']), ('Ð', ['ð']), ('Ñ', ['ñ']),
   ('Ò', ['ò']), ('Ó', ['ó']), ('Ô', ['ô']), ('Õ', ['õ']), ('Ö', ['ö']), ('Ø', ['ø']),
   ('Ù', ['ù']), ('Ú', ['ú']), ('Û', ['û']), ('Ü', ['ü']), ('Ý', ['ý']), ('Þ', ['þ']),
   ('Ā', ['ā']), ('Ă', ['ă']), ('Ą', ['ą']), ('Ć', ['ć']), ('Ĉ', ['ĉ']), ('Ċ', ['ċ']),
   ('Č', ['č']), ('Ď', ['ď'])]

def lowerChunk2 : List (Char × List Char) :=
  [ ('Đ', ['đ']), ('Ē', ['ē']), ('Ĕ', ['ĕ']), ('Ė', ['ė']), ('Ę', ['ę']), ('Ě', ['ě']),
   ('Ĝ', ['ĝ']), ('Ğ', ['ğ']), ('Ġ', ['ġ']), ('Ģ', ['ģ']), ('Ĥ', ['ĥ']), ('Ħ', ['ħ']),
   ('Ĩ', ['ĩ']), ('Ī', ['ī']), ('Ĭ', ['ĭ']), ('Į', ['į']), ('İ', ['i', '̇']), ('Ĳ', ['ĳ']),
   ('Ĵ', ['ĵ']), ('Ķ', ['ķ']), ('Ĺ', ['ĺ']), ('Ļ', ['ļ']), ('Ľ', ['ľ']), ('Ŀ', ['ŀ']),
   ('Ł', ['ł']), ('Ń', ['ń']), ('Ņ', ['ņ']), ('Ň', ['ň']), ('Ŋ', ['ŋ']), ('Ō', ['ō']),
   ('Ŏ', ['ŏ']), ('Ő', ['ő'])]

def lowerChunk3 : List (Char × List Char) :=
  [ ('Œ', ['œ']), ('Ŕ', ['ŕ']), ('Ŗ', ['ŗ']), ('Ř', ['ř']), ('Ś', ['ś']), ('Ŝ', ['ŝ']),
   ('Ş', ['ş']), ('Š', ['š']), ('Ţ', ['ţ']), ('Ť', ['ť']), ('Ŧ', ['ŧ']), ('Ũ', ['ũ']),
   ('Ū', ['ū']), ('Ŭ', ['ŭ']), ('Ů', ['ů']), ('Ű', ['ű']), ('Ų', ['ų']), ('Ŵ', ['ŵ']),
   ('Ŷ', ['ŷ']), ('Ÿ', ['ÿ']), ('Ź', ['ź']), ('Ż', ['ż']), ('Ž', ['ž']), ('Ɓ', ['ɓ']),
   ('Ƃ', ['ƃ']), ('Ƅ', ['ƅ']), ('Ɔ', ['ɔ']), ('Ƈ', ['ƈ']), ('Ɖ', ['ɖ']), ('Ɗ', ['ɗ']),
   ('Ƌ', ['ƌ']), ('Ǝ', ['ǝ'])]

def lowerChunk4 : List (Char × List Char) :=
  [ ('Ə', ['ə']), ('Ɛ', ['ɛ']), ('Ƒ', ['ƒ']), ('Ɠ', ['ɠ']), ('Ɣ', ['ɣ']), ('Ɩ', ['ɩ']),
   ('Ɨ', ['ɨ']), ('Ƙ', ['ƙ']), ('Ɯ', ['ɯ']), ('Ɲ', ['ɲ']), ('Ɵ', ['ɵ']), ('Ơ', ['ơ']),
   ('Ƣ', ['ƣ']), ('Ƥ', ['ƥ']), ('Ʀ', ['ʀ']), ('Ƨ', ['ƨ']), ('Ʃ', ['ʃ']), ('Ƭ', ['ƭ']),
   ('Ʈ', ['ʈ']), ('Ư', ['ư']), ('Ʊ', ['ʊ']), ('Ʋ', ['ʋ']), ('Ƴ', ['ƴ']), ('Ƶ', ['ƶ']),
   ('Ʒ', ['ʒ']), ('Ƹ', ['ƹ']), ('Ƽ', ['ƽ']), ('Ǆ', ['ǆ']), ('ǅ', ['ǆ']), ('Ǉ', ['ǉ']),
   ('ǈ', ['ǉ']), ('Ǌ', ['ǌ'])]

def lowerChunk5 : List (Char × List Char) :=
  [ ('ǋ', ['ǌ']), ('Ǎ', ['ǎ']), ('Ǐ', ['ǐ']), ('Ǒ', ['ǒ']), ('Ǔ', ['ǔ']), ('Ǖ', ['ǖ']),
   ('Ǘ', ['ǘ']), ('Ǚ', ['ǚ']), ('Ǜ', ['ǜ']), ('Ǟ', ['ǟ']), ('Ǡ', ['ǡ']), ('Ǣ', ['ǣ']),
   ('Ǥ', ['ǥ']), ('Ǧ', ['ǧ']), ('Ǩ', ['ǩ']), ('Ǫ', ['ǫ']), ('Ǭ', ['ǭ']), ('Ǯ', ['ǯ']),
   ('Ǳ', ['ǳ']), ('ǲ', ['ǳ']), ('Ǵ', ['ǵ']), ('Ƕ', ['ƕ']), ('Ƿ', ['ƿ']), ('Ǹ', ['ǹ']),
   ('Ǻ', ['ǻ']), ('Ǽ', ['ǽ']), ('Ǿ', ['ǿ']), ('Ȁ', ['ȁ']), ('Ȃ', ['ȃ']), ('Ȅ', ['ȅ']),
   ('Ȇ', ['ȇ']), ('Ȉ', ['ȉ'])]

def lowerChunk6 : List (Char × List Char) :=
  [ ('Ȋ', ['ȋ']), ('Ȍ', ['ȍ']), ('Ȏ', ['ȏ']), ('Ȑ', ['ȑ']), ('Ȓ', ['ȓ']), ('Ȕ', ['ȕ']),
   ('Ȗ', ['ȗ']), ('Ș', ['ș']), ('Ț', ['ț']), ('Ȝ', ['ȝ']), ('Ȟ', ['ȟ']), ('Ƞ', ['ƞ']),
   ('Ȣ', ['ȣ']), ('Ȥ', ['ȥ']), ('Ȧ', ['ȧ']), ('Ȩ', ['ȩ']), ('Ȫ', ['ȫ']), ('Ȭ', ['ȭ']),
   ('Ȯ', ['ȯ']), ('Ȱ', ['ȱ']), ('Ȳ', ['ȳ']), ('Ⱥ', ['ⱥ']), ('Ȼ', ['ȼ']), ('Ƚ', ['ƚ']),
   ('Ⱦ', ['ⱦ']), ('Ɂ', ['ɂ']), ('Ƀ', ['ƀ']), ('Ʉ', ['ʉ']), ('Ʌ', ['ʌ']), ('Ɇ', ['ɇ']),
   ('Ɉ', ['ɉ']), ('Ɋ', ['ɋ'])]

def lowerChunk7 : List (Char × List Char) :=
  [ ('Ɍ', ['ɍ']), ('Ɏ', ['ɏ']), ('Ͱ', ['ͱ']), ('Ͳ', ['ͳ']), ('Ͷ', ['ͷ']), ('Ϳ', ['ϳ']),
   ('Ά', ['ά']), ('Έ', ['έ']), ('Ή', ['ή']), ('Ί', ['ί']), ('Ό', ['ό']), ('Ύ', ['ύ']),
   ('Ώ', ['ώ']), ('Α', ['α']), ('Β', ['β']), ('Γ', ['γ']), ('Δ', ['δ']), ('Ε', ['ε']),
   ('Ζ', ['ζ']), ('Η', ['η']), ('Θ', ['θ']), ('Ι', ['ι']), ('Κ', ['κ']), ('Λ', ['λ']),
   ('Μ', ['μ']), ('Ν', ['ν']), ('Ξ', ['ξ']), ('Ο', ['ο']), ('Π', ['π']), ('Ρ', ['ρ']),
   ('Σ', ['σ']), ('Τ', ['τ'])]

def lowerChunk8 : List (Char × List Char) :=
  [ ('Υ', ['υ']), ('Φ', ['φ']), ('Χ', ['χ']), ('Ψ', ['ψ']), ('Ω', ['ω']), ('Ϊ', ['ϊ']),
   ('Ϋ', ['ϋ']), ('Ϗ', ['ϗ']), ('Ϙ', ['ϙ']), ('Ϛ', ['ϛ']), ('Ϝ', ['ϝ']), ('Ϟ', ['ϟ']),
   ('Ϡ', ['ϡ']), ('Ϣ', ['ϣ']), ('Ϥ', ['ϥ']), ('Ϧ', ['ϧ']), ('Ϩ', ['ϩ']), ('Ϫ', ['ϫ']),
   ('Ϭ', ['ϭ']), ('Ϯ', ['ϯ']), ('ϴ', ['θ']), ('Ϸ', ['ϸ']), ('Ϲ', ['ϲ']), ('Ϻ', ['ϻ']),
   ('Ͻ', ['ͻ']), ('Ͼ', ['ͼ']), ('Ͽ', ['ͽ']), ('Ѐ', ['ѐ']), ('Ё', ['ё']), ('Ђ', ['ђ']),
   ('Ѓ', ['ѓ']), ('Є', ['є'])]

def lowerChunk9 : List (Char × List Char) :=
  [ ('Ѕ', ['ѕ']), ('І', ['і']), ('Ї', ['ї']), ('Ј', ['ј']), ('Љ', ['љ']), ('Њ', ['њ']),
   ('Ћ', ['ћ']), ('Ќ', ['ќ']), ('Ѝ', ['ѝ']), ('Ў', ['ў']), ('Џ', ['џ']), ('А', ['а']),
   ('Б', ['б']), ('В', ['в']), ('Г', ['г']), ('Д', ['д']), ('Е', ['е']), ('Ж', ['ж']),
   ('З', ['з']), ('И', ['и']), ('Й', ['й']), ('К', ['к']), ('Л', ['л']), ('М', ['м']),
   ('Н', ['н']), ('О', ['о']), ('П', ['п']), ('Р', ['р']), ('С', ['с']), ('Т', ['т']),
   ('У', ['у']), ('Ф', ['ф'])]

def lowerChunk10 : List (Char × List Char) :=
  [ ('Х', ['х']), ('Ц', ['ц']), ('Ч', ['ч']), ('Ш', ['ш']), ('Щ', ['щ']), ('Ъ', ['ъ']),
   ('Ы', ['ы']), ('Ь', ['ь']), ('Э', ['э']), ('Ю', ['ю']), ('Я', ['я']), ('Ѡ', ['ѡ']),
   ('Ѣ', ['ѣ']), ('Ѥ', ['ѥ']), ('Ѧ', ['ѧ']), ('Ѩ', ['ѩ']), ('Ѫ', ['ѫ']), ('Ѭ', ['ѭ']),
   ('Ѯ', ['ѯ']), ('Ѱ', ['ѱ']), ('Ѳ', ['ѳ']), ('Ѵ', ['ѵ']), ('Ѷ', ['ѷ']), ('Ѹ', ['ѹ']),
   ('Ѻ', ['ѻ']), ('Ѽ', ['ѽ']), ('Ѿ', ['ѿ']), ('Ҁ', ['ҁ']), ('Ҋ', ['ҋ']), ('Ҍ', ['ҍ']),
   ('Ҏ', ['ҏ']), ('Ґ', ['ґ'])]

def lowerChunk11 : List (Char × List Char) :=
  [ ('Ғ', ['ғ']), ('Ҕ', ['ҕ']), ('Җ', ['җ']), ('Ҙ', ['ҙ']), ('Қ', ['қ']), ('Ҝ', ['ҝ']),
   ('Ҟ', ['ҟ']), ('Ҡ', ['ҡ']), ('Ң', ['ң']), ('Ҥ', ['ҥ']), ('Ҧ', ['ҧ']), ('Ҩ', ['ҩ']),
   ('Ҫ', ['ҫ']), ('Ҭ', ['ҭ']), ('Ү', ['ү']), ('Ұ', ['ұ']), ('Ҳ', ['ҳ']), ('Ҵ', ['ҵ']),
   ('Ҷ', ['ҷ']), ('Ҹ', ['ҹ']), ('Һ', ['һ']), ('Ҽ', ['ҽ']), ('Ҿ', ['ҿ']), ('Ӏ', ['ӏ']),
   ('Ӂ', ['ӂ']), ('Ӄ', ['ӄ']), ('Ӆ', ['ӆ']), ('Ӈ', ['ӈ']), ('Ӊ', ['ӊ']), ('Ӌ', ['ӌ']),
   ('Ӎ', ['ӎ']), ('Ӑ', ['ӑ'])]

def lowerChunk12 : List (Char × List Char) :=
  [ ('Ӓ', ['ӓ']), ('Ӕ', ['ӕ']), ('Ӗ', ['ӗ']), ('Ә', ['ә']), ('Ӛ', ['ӛ']), ('Ӝ', ['ӝ']),
   ('Ӟ', ['ӟ']), ('Ӡ', ['ӡ']), ('Ӣ', ['ӣ']), ('Ӥ', ['ӥ']), ('Ӧ', ['ӧ']), ('Ө', ['ө']),
   ('Ӫ', ['ӫ']), ('Ӭ', ['ӭ']), ('Ӯ', ['ӯ']), ('Ӱ', ['ӱ']), ('Ӳ', ['ӳ']), ('Ӵ', ['ӵ']),
   ('Ӷ', ['ӷ']), ('Ӹ', ['ӹ']), ('Ӻ', ['ӻ']), ('Ӽ', ['ӽ']), ('Ӿ', ['ӿ']), ('Ԁ', ['ԁ']),
   ('Ԃ', ['ԃ']), ('Ԅ', ['ԅ']), ('Ԇ', ['ԇ']), ('Ԉ', ['ԉ']), ('Ԋ', ['ԋ']), ('Ԍ', ['ԍ']),
   ('Ԏ', ['ԏ']), ('Ԑ', ['ԑ'])]

def lowerChunk13 : List (Char × List Char) :=
  [ ('Ԓ', ['ԓ']), ('Ԕ', ['ԕ']), ('Ԗ', ['ԗ']), ('Ԙ', ['ԙ']), ('Ԛ', ['ԛ']), ('Ԝ', ['ԝ']),
   ('Ԟ', ['ԟ']), ('Ԡ', ['ԡ']), ('Ԣ', ['ԣ']), ('Ԥ', ['ԥ']), ('Ԧ', ['ԧ']), ('Ԩ', ['ԩ']),
   ('Ԫ', ['ԫ']), ('Ԭ', ['ԭ']), ('Ԯ', ['ԯ']), ('Ա', ['ա']), ('Բ', ['բ']), ('Գ', ['գ']),
   ('Դ', ['դ']), ('Ե', ['ե']), ('Զ', ['զ']), ('Է', ['է']), ('Ը', ['ը']), ('Թ', ['թ']),
   ('Ժ', ['ժ']), ('Ի', ['ի']), ('Լ', ['լ']), ('Խ', ['խ']), ('Ծ', ['ծ']), ('Կ', ['կ']),
   ('Հ', ['հ']), ('Ձ', ['ձ'])]

def lowerChunk14 : List (Char × List Char) :=
  [ ('Ղ', ['ղ']), ('Ճ', ['ճ']), ('Մ', ['մ']), ('Յ', ['յ']), ('Ն', ['ն']), ('Շ', ['շ']),
   ('Ո', ['ո']), ('Չ', ['չ']), ('Պ', ['պ']), ('Ջ', ['ջ']), ('Ռ', ['ռ']), ('Ս', ['ս']),
   ('Վ', ['վ']), ('Տ', ['տ']), ('Ր', ['ր']), ('Ց', ['ց']), ('Ւ', ['ւ']), ('Փ', ['փ']),
   ('Ք', ['ք']), ('Օ', ['օ']), ('Ֆ', ['ֆ']), ('Ⴀ', ['ⴀ']), ('Ⴁ', ['ⴁ']), ('Ⴂ', ['ⴂ']),
   ('Ⴃ', ['ⴃ']), ('Ⴄ', ['ⴄ']), ('Ⴅ', ['ⴅ']), ('Ⴆ', ['ⴆ']), ('Ⴇ', ['ⴇ']), ('Ⴈ', ['ⴈ']),
   ('Ⴉ', ['ⴉ']), ('Ⴊ', ['ⴊ'])]

def lowerChunk15 : List (Char × List Char) :=
  [ ('Ⴋ', ['ⴋ']), ('Ⴌ', ['ⴌ']), ('Ⴍ', ['ⴍ']), ('Ⴎ', ['ⴎ']), ('Ⴏ', ['ⴏ']), ('Ⴐ', ['ⴐ']),
   ('Ⴑ', ['ⴑ']), ('Ⴒ', ['ⴒ']), ('Ⴓ', ['ⴓ']), ('Ⴔ', ['ⴔ']), ('Ⴕ', ['ⴕ']), ('Ⴖ', ['ⴖ']),
   ('Ⴗ', ['ⴗ']), ('Ⴘ', ['ⴘ']), ('Ⴙ', ['ⴙ']), ('Ⴚ', ['ⴚ']), ('Ⴛ', ['ⴛ']), ('Ⴜ', ['ⴜ']),
   ('Ⴝ', ['ⴝ']), ('Ⴞ', ['ⴞ']), ('Ⴟ', ['ⴟ']), ('Ⴠ', ['ⴠ']), ('Ⴡ', ['ⴡ']), ('Ⴢ', ['ⴢ']),
   ('Ⴣ', ['ⴣ']), ('Ⴤ', ['ⴤ']), ('Ⴥ', ['ⴥ']), ('Ⴧ', ['ⴧ']), ('Ⴭ', ['ⴭ']), ('Ꭰ', ['ꭰ']),
   ('Ꭱ', ['ꭱ']), ('Ꭲ', ['ꭲ'])]

def lowerChunk16 : List (Char × List Char) :=
  [ ('Ꭳ', ['ꭳ']), ('Ꭴ', ['ꭴ']), ('Ꭵ', ['ꭵ']), ('Ꭶ', ['ꭶ']), ('Ꭷ', ['ꭷ']), ('Ꭸ', ['ꭸ']),
   ('Ꭹ', ['ꭹ']), ('Ꭺ', ['ꭺ']), ('Ꭻ', ['ꭻ']), ('Ꭼ', ['ꭼ']), ('Ꭽ', ['ꭽ']), ('Ꭾ', ['ꭾ']),
   ('Ꭿ', ['ꭿ']), ('Ꮀ', ['ꮀ']), ('Ꮁ', ['ꮁ']), ('Ꮂ', ['ꮂ']), ('Ꮃ', ['ꮃ']), ('Ꮄ', ['ꮄ']),
   ('Ꮅ', ['ꮅ']), ('Ꮆ', ['ꮆ']), ('Ꮇ', ['ꮇ']), ('Ꮈ', ['ꮈ']), ('Ꮉ', ['ꮉ']), ('Ꮊ', ['ꮊ']),
   ('Ꮋ', ['ꮋ']), ('Ꮌ', ['ꮌ']), ('Ꮍ', ['ꮍ']), ('Ꮎ', ['ꮎ']), ('Ꮏ', ['ꮏ']), ('Ꮐ', ['ꮐ']),
   ('Ꮑ', ['ꮑ']), ('Ꮒ', ['ꮒ'])]

def lowerChunk17 : List (Char × List Char) :=
  [ ('Ꮓ', ['ꮓ']), ('Ꮔ', ['ꮔ']), ('Ꮕ', ['ꮕ']), ('Ꮖ', ['ꮖ']), ('Ꮗ', ['ꮗ']), ('Ꮘ', ['ꮘ']),
   ('Ꮙ', ['ꮙ']), ('Ꮚ', ['ꮚ']), ('Ꮛ', ['ꮛ']), ('Ꮜ', ['ꮜ']), ('Ꮝ', ['ꮝ']), ('Ꮞ', ['ꮞ']),
   ('Ꮟ', ['ꮟ']), ('Ꮠ', ['ꮠ']), ('Ꮡ', ['ꮡ']), ('Ꮢ', ['ꮢ']), ('Ꮣ', ['ꮣ']), ('Ꮤ', ['ꮤ']),
   ('Ꮥ', ['ꮥ']), ('Ꮦ', ['ꮦ']), ('Ꮧ', ['ꮧ']), ('Ꮨ', ['ꮨ']), ('Ꮩ', ['ꮩ']), ('Ꮪ', ['ꮪ']),
   ('Ꮫ', ['ꮫ']), ('Ꮬ', ['ꮬ']), ('Ꮭ', ['ꮭ']), ('Ꮮ', ['ꮮ']), ('Ꮯ', ['ꮯ']), ('Ꮰ', ['ꮰ']),
   ('Ꮱ', ['ꮱ']), ('Ꮲ', ['ꮲ'])]

def lowerChunk18 : List (Char × List Char) :=
  [ ('Ꮳ', ['ꮳ']), ('Ꮴ', ['ꮴ']), ('Ꮵ', ['ꮵ']), ('Ꮶ', ['ꮶ']), ('Ꮷ', ['ꮷ']), ('Ꮸ', ['ꮸ']),
   ('Ꮹ', ['ꮹ']), ('Ꮺ', ['ꮺ']), ('Ꮻ', ['ꮻ']), ('Ꮼ', ['ꮼ']), ('Ꮽ', ['ꮽ']), ('Ꮾ', ['ꮾ']),
   ('Ꮿ', ['ꮿ']), ('Ᏸ', ['ᏸ']), ('Ᏹ', ['ᏹ']), ('Ᏺ', ['ᏺ']), ('Ᏻ', ['ᏻ']), ('Ᏼ', ['ᏼ']),
   ('Ᏽ', ['ᏽ']), ('Ა', ['ა']), ('Ბ', ['ბ']), ('Გ', ['გ']), ('Დ', ['დ']), ('Ე', ['ე']),
   ('Ვ', ['ვ']), ('Ზ', ['ზ']), ('Თ', ['თ']), ('Ი', ['ი']), ('Კ', ['კ']), ('Ლ', ['ლ']),
   ('Მ', ['მ']), ('Ნ', ['ნ'])]

def lowerChunk19 : List (Char × List Char) :=
  [ ('Ო', ['ო']), ('Პ', ['პ']), ('Ჟ', ['ჟ']), ('Რ', ['რ']), ('Ს', ['ს']), ('Ტ', ['ტ']),
   ('Უ', ['უ']), ('Ფ', ['ფ']), ('Ქ', ['ქ']), ('Ღ', ['ღ']), ('Ყ', ['ყ']), ('Შ', ['შ']),
   ('Ჩ', ['ჩ']), ('Ც', ['ც']), ('Ძ', ['ძ']), ('Წ', ['წ']), ('Ჭ', ['ჭ']), ('Ხ', ['ხ']),
   ('Ჯ', ['ჯ']), ('Ჰ', ['ჰ']), ('Ჱ', ['ჱ']), ('Ჲ', ['ჲ']), ('Ჳ', ['ჳ']), ('Ჴ', ['ჴ']),
   ('Ჵ', ['ჵ']), ('Ჶ', ['ჶ']), ('Ჷ', ['ჷ']), ('Ჸ', ['ჸ']), ('Ჹ', ['ჹ']), ('Ჺ', ['ჺ']),
   ('Ჽ', ['ჽ']), ('Ჾ', ['ჾ'])]

def lowerChunk20 : List (Char × List Char) :=
  [ ('Ჿ', ['ჿ']), ('Ḁ', ['ḁ']), ('Ḃ', ['ḃ']), ('Ḅ', ['ḅ']), ('Ḇ', ['ḇ']), ('Ḉ', ['ḉ']),
   ('Ḋ', ['ḋ']), ('Ḍ', ['ḍ']), ('Ḏ', ['ḏ']), ('Ḑ', ['ḑ']), ('Ḓ', ['ḓ']), ('Ḕ', ['ḕ']),
   ('Ḗ', ['ḗ']), ('Ḙ', ['ḙ']), ('Ḛ', ['ḛ']), ('Ḝ', ['ḝ']), ('Ḟ', ['ḟ']), ('Ḡ', ['ḡ']),
   ('Ḣ', ['ḣ']), ('Ḥ', ['ḥ']), ('Ḧ', ['ḧ']), ('Ḩ', ['ḩ']), ('Ḫ', ['ḫ']), ('Ḭ', ['ḭ']),
   ('Ḯ', ['ḯ']), ('Ḱ', ['ḱ']), ('Ḳ', ['ḳ']), ('Ḵ', ['ḵ']), ('Ḷ', ['ḷ']), ('Ḹ', ['ḹ']),
   ('Ḻ', ['ḻ']), ('Ḽ', ['ḽ'])]

def lowerChunk21 : List (Char × List Char) :=
  [ ('Ḿ', ['ḿ']), ('Ṁ', ['ṁ']), ('Ṃ', ['ṃ']), ('Ṅ', ['ṅ']), ('Ṇ', ['ṇ']), ('Ṉ', ['ṉ']),
   ('Ṋ', ['ṋ']), ('Ṍ', ['ṍ']), ('Ṏ', ['ṏ']), ('Ṑ', ['ṑ']), ('Ṓ', ['ṓ']), ('Ṕ', ['ṕ']),
   ('Ṗ', ['ṗ']), ('Ṙ', ['ṙ']), ('Ṛ', ['ṛ']), ('Ṝ', ['ṝ']), ('Ṟ', ['ṟ']), ('Ṡ', ['ṡ']),
   ('Ṣ', ['ṣ']), ('Ṥ', ['ṥ']), ('Ṧ', ['ṧ']), ('Ṩ', ['ṩ']), ('Ṫ', ['ṫ']), ('Ṭ', ['ṭ']),
   ('Ṯ', ['ṯ']), ('Ṱ', ['ṱ']), ('Ṳ', ['ṳ']), ('Ṵ', ['ṵ']), ('Ṷ', ['ṷ']), ('Ṹ', ['ṹ']),
   ('Ṻ', ['ṻ']), ('Ṽ', ['ṽ'])]

def lowerChunk22 : List (Char × List Char) :=
  [ ('Ṿ', ['ṿ']), ('Ẁ', ['ẁ']), ('Ẃ', ['ẃ']), ('Ẅ', ['ẅ']), ('Ẇ', ['ẇ']), ('Ẉ', ['ẉ']),
   ('Ẋ', ['ẋ']), ('Ẍ', ['ẍ']), ('Ẏ', ['ẏ']), ('Ẑ', ['ẑ']), ('Ẓ', ['ẓ']), ('Ẕ', ['ẕ']),
   ('ẞ', ['ß']), ('Ạ', ['ạ']), ('Ả', ['ả']), ('Ấ', ['ấ']), ('Ầ', ['ầ']), ('Ẩ', ['ẩ']),
   ('Ẫ', ['ẫ']), ('Ậ', ['ậ']), ('Ắ', ['ắ']), ('Ằ', ['ằ']), ('Ẳ', ['ẳ']), ('Ẵ', ['ẵ']),
   ('Ặ', ['ặ']), ('Ẹ', ['ẹ']), ('Ẻ', ['ẻ']), ('Ẽ', ['ẽ']), ('Ế', ['ế']), ('Ề', ['ề']),
   ('Ể', ['ể']), ('Ễ', ['ễ'])]

def lowerChunk23 : List (Char × List Char) :=
  [ ('Ệ', ['ệ']), ('Ỉ', ['ỉ']), ('Ị', ['ị']), ('Ọ', ['ọ']), ('Ỏ', ['ỏ']), ('Ố', ['ố']),
   ('Ồ', ['ồ']), ('Ổ', ['ổ']), ('Ỗ', ['ỗ']), ('Ộ', ['ộ']), ('Ớ', ['ớ']), ('Ờ', ['ờ']),
   ('Ở', ['ở']), ('Ỡ', ['ỡ']), ('Ợ', ['ợ']), ('Ụ', ['ụ']), ('Ủ', ['ủ']), ('Ứ', ['ứ']),
   ('Ừ', ['ừ']), ('Ử', ['ử']), ('Ữ', ['ữ']), ('Ự', ['ự']), ('Ỳ', ['ỳ']), ('Ỵ', ['ỵ']),
   ('Ỷ', ['ỷ']), ('Ỹ', ['ỹ']), ('Ỻ', ['ỻ']), ('Ỽ', ['ỽ']), ('Ỿ', ['ỿ']), ('Ἀ', ['ἀ']),
   ('Ἁ', ['ἁ']), ('Ἂ', ['ἂ'])]

def lowerChunk24 : List (Char × List Char) :=
  [ ('Ἃ', ['ἃ']), ('Ἄ', ['ἄ']), ('Ἅ', ['ἅ']), ('Ἆ', ['ἆ']), ('Ἇ', ['ἇ']), ('Ἐ', ['ἐ']),
   ('Ἑ', ['ἑ']), ('Ἒ', ['ἒ']), ('Ἓ', ['ἓ']), ('Ἔ', ['ἔ']), ('Ἕ', ['ἕ']), ('Ἠ', ['ἠ']),
   ('Ἡ', ['ἡ']), ('Ἢ', ['ἢ']), ('Ἣ', ['ἣ']), ('Ἤ', ['ἤ']), ('Ἥ', ['ἥ']), ('Ἦ', ['ἦ']),
   ('Ἧ', ['ἧ']), ('Ἰ', ['ἰ']), ('Ἱ', ['ἱ']), ('Ἲ', ['ἲ']), ('Ἳ', ['ἳ']), ('Ἴ', ['ἴ']),
   ('Ἵ', ['ἵ']), ('Ἶ', ['ἶ']), ('Ἷ', ['ἷ']), ('Ὀ', ['ὀ']), ('Ὁ', ['ὁ']), ('Ὂ', ['ὂ']),
   ('Ὃ', ['ὃ']), ('Ὄ', ['ὄ'])]

def lowerChunk25 : List (Char × List Char) :=
  [ ('Ὅ', ['ὅ']), ('Ὑ', ['ὑ']), ('Ὓ', ['ὓ']), ('Ὕ', ['ὕ']), ('Ὗ', ['ὗ']), ('Ὠ', ['ὠ']),
   ('Ὡ', ['ὡ']), ('Ὢ', ['ὢ']), ('Ὣ', ['ὣ']), ('Ὤ', ['ὤ']), ('Ὥ', ['ὥ']), ('Ὦ', ['ὦ']),
   ('Ὧ', ['ὧ']), ('ᾈ', ['ᾀ']), ('ᾉ', ['ᾁ']), ('ᾊ', ['ᾂ']), ('ᾋ', ['ᾃ']), ('ᾌ', ['ᾄ']),
   ('ᾍ', ['ᾅ']), ('ᾎ', ['ᾆ']), ('ᾏ', ['ᾇ']), ('ᾘ', ['ᾐ']), ('ᾙ', ['ᾑ']), ('ᾚ', ['ᾒ']),
   ('ᾛ', ['ᾓ']), ('ᾜ', ['ᾔ']), ('ᾝ', ['ᾕ']), ('ᾞ', ['ᾖ']), ('ᾟ', ['ᾗ']), ('ᾨ', ['ᾠ']),
   ('ᾩ', ['ᾡ']), ('ᾪ', ['ᾢ'])]

def lowerChunk26 : List (Char × List Char) :=
  [ ('ᾫ', ['ᾣ']), ('ᾬ', ['ᾤ']), ('ᾭ', ['ᾥ']), ('ᾮ', ['ᾦ']), ('ᾯ', ['ᾧ']), ('Ᾰ', ['ᾰ']),
   ('Ᾱ', ['ᾱ']), ('Ὰ', ['ὰ']), ('Ά', ['ά']), ('ᾼ', ['ᾳ']), ('Ὲ', ['ὲ']), ('Έ', ['έ']),
   ('Ὴ', ['ὴ']), ('Ή', ['ή']), ('ῌ', ['ῃ']), ('Ῐ', ['ῐ']), ('Ῑ', ['ῑ']), ('Ὶ', ['ὶ']),
   ('Ί', ['ί']), ('Ῠ', ['ῠ']), ('Ῡ', ['ῡ']), ('Ὺ', ['ὺ']), ('Ύ', ['ύ']), ('Ῥ', ['ῥ']),
   ('Ὸ', ['ὸ']), ('Ό', ['ό']), ('Ὼ', ['ὼ']), ('Ώ', ['ώ']), ('ῼ', ['ῳ']), ('Ω', ['ω']),
   ('K', ['k']), ('Å', ['å'])]

def lowerChunk27 : List (Char × List Char) :=
  [ ('Ⅎ', ['ⅎ']), ('Ⅰ', ['ⅰ']), ('Ⅱ', ['ⅱ']), ('Ⅲ', ['ⅲ']), ('Ⅳ', ['ⅳ']), ('Ⅴ', ['ⅴ']),
   ('Ⅵ', ['ⅵ']), ('Ⅶ', ['ⅶ']), ('Ⅷ', ['ⅷ']), ('Ⅸ', ['ⅸ']), ('Ⅹ', ['ⅹ']), ('Ⅺ', ['ⅺ']),
   ('Ⅻ', ['ⅻ']), ('Ⅼ', ['ⅼ']), ('Ⅽ', ['ⅽ']), ('Ⅾ', ['ⅾ']), ('Ⅿ', ['ⅿ']), ('Ↄ', ['ↄ']),
   ('Ⓐ', ['ⓐ']), ('Ⓑ', ['ⓑ']), ('Ⓒ', ['ⓒ']), ('Ⓓ', ['ⓓ']), ('Ⓔ', ['ⓔ']), ('Ⓕ', ['ⓕ']),
   ('Ⓖ', ['ⓖ']), ('Ⓗ', ['ⓗ']), ('Ⓘ', ['ⓘ']), ('Ⓙ', ['ⓙ']), ('Ⓚ', ['ⓚ']), ('Ⓛ', ['ⓛ']),
   ('Ⓜ', ['ⓜ']), ('Ⓝ', ['ⓝ'])]

def lowerChunk28 : List (Char × List Char) :=
  [ ('Ⓞ', ['ⓞ']), ('Ⓟ', ['ⓟ']), ('Ⓠ', ['ⓠ']), ('Ⓡ', ['ⓡ']), ('Ⓢ', ['ⓢ']), ('Ⓣ', ['ⓣ']),
   ('Ⓤ', ['ⓤ']), ('Ⓥ', ['ⓥ']), ('Ⓦ', ['ⓦ']), ('Ⓧ', ['ⓧ']), ('Ⓨ', ['ⓨ']), ('Ⓩ', ['ⓩ']),
   ('Ⰰ', ['ⰰ']), ('Ⰱ', ['ⰱ']), ('Ⰲ', ['ⰲ']), ('Ⰳ', ['ⰳ']), ('Ⰴ', ['ⰴ']), ('Ⰵ', ['ⰵ']),
   ('Ⰶ', ['ⰶ']), ('Ⰷ', ['ⰷ']), ('Ⰸ', ['ⰸ']), ('Ⰹ', ['ⰹ']), ('Ⰺ', ['ⰺ']), ('Ⰻ', ['ⰻ']),
   ('Ⰼ', ['ⰼ']), ('Ⰽ', ['ⰽ']), ('Ⰾ', ['ⰾ']), ('Ⰿ', ['ⰿ']), ('Ⱀ', ['ⱀ']), ('Ⱁ', ['ⱁ']),
   ('Ⱂ', ['ⱂ']), ('Ⱃ', ['ⱃ'])]

def lowerChunk29 : List (Char × List Char) :=
  [ ('Ⱄ', ['ⱄ']), ('Ⱅ', ['ⱅ']), ('Ⱆ', ['ⱆ']), ('Ⱇ', ['ⱇ']), ('Ⱈ', ['ⱈ']), ('Ⱉ', ['ⱉ']),
   ('Ⱊ', ['ⱊ']), ('Ⱋ', ['ⱋ']), ('Ⱌ', ['ⱌ']), ('Ⱍ', ['ⱍ']), ('Ⱎ', ['ⱎ']), ('Ⱏ', ['ⱏ']),
   ('Ⱐ', ['ⱐ']), ('Ⱑ', ['ⱑ']), ('Ⱒ', ['ⱒ']), ('Ⱓ', ['ⱓ']), ('Ⱔ', ['ⱔ']), ('Ⱕ', ['ⱕ']),
   ('Ⱖ', ['ⱖ']), ('Ⱗ', ['ⱗ']), ('Ⱘ', ['ⱘ']), ('Ⱙ', ['ⱙ']), ('Ⱚ', ['ⱚ']), ('Ⱛ', ['ⱛ']),
   ('Ⱜ', ['ⱜ']), ('Ⱝ', ['ⱝ']), ('Ⱞ', ['ⱞ']), ('Ⱟ', ['ⱟ']), ('Ⱡ', ['ⱡ']), ('Ɫ', ['ɫ']),
   ('Ᵽ', ['ᵽ']), ('Ɽ', ['ɽ'])]

def lowerChunk30 : List (Char × List Char) :=
  [ ('Ⱨ', ['ⱨ']), ('Ⱪ', ['ⱪ']), ('Ⱬ', ['ⱬ']), ('Ɑ', ['ɑ']), ('Ɱ', ['ɱ']), ('Ɐ', ['ɐ']),
   ('Ɒ', ['ɒ']), ('Ⱳ', ['ⱳ']), ('Ⱶ', ['ⱶ']), ('Ȿ', ['ȿ']), ('Ɀ', ['ɀ']), ('Ⲁ', ['ⲁ']),
   ('Ⲃ', ['ⲃ']), ('Ⲅ', ['ⲅ']), ('Ⲇ', ['ⲇ']), ('Ⲉ', ['ⲉ']), ('Ⲋ', ['ⲋ']), ('Ⲍ', ['ⲍ']),
   ('Ⲏ', ['ⲏ']), ('Ⲑ', ['ⲑ']), ('Ⲓ', ['ⲓ']), ('Ⲕ', ['ⲕ']), ('Ⲗ', ['ⲗ']), ('Ⲙ', ['ⲙ']),
   ('Ⲛ', ['ⲛ']), ('Ⲝ', ['ⲝ']), ('Ⲟ', ['ⲟ']), ('Ⲡ', ['ⲡ']), ('Ⲣ', ['ⲣ']), ('Ⲥ', ['ⲥ']),
   ('Ⲧ', ['ⲧ']), ('Ⲩ', ['ⲩ'])]

def lowerChunk31 : List (Char × List Char) :=
  [ ('Ⲫ', ['ⲫ']), ('Ⲭ', ['ⲭ']), ('Ⲯ', ['ⲯ']), ('Ⲱ', ['ⲱ']), ('Ⲳ', ['ⲳ']), ('Ⲵ', ['ⲵ']),
   ('Ⲷ', ['ⲷ']), ('Ⲹ', ['ⲹ']), ('Ⲻ', ['ⲻ']), ('Ⲽ', ['ⲽ']), ('Ⲿ', ['ⲿ']), ('Ⳁ', ['ⳁ']),
   ('Ⳃ', ['ⳃ']), ('Ⳅ', ['ⳅ']), ('Ⳇ', ['ⳇ']), ('Ⳉ', ['ⳉ']), ('Ⳋ', ['ⳋ']), ('Ⳍ', ['ⳍ']),
   ('Ⳏ', ['ⳏ']), ('Ⳑ', ['ⳑ']), ('Ⳓ', ['ⳓ']), ('Ⳕ', ['ⳕ']), ('Ⳗ', ['ⳗ']), ('Ⳙ', ['ⳙ']),
   ('Ⳛ', ['ⳛ']), ('Ⳝ', ['ⳝ']), ('Ⳟ', ['ⳟ']), ('Ⳡ', ['ⳡ']), ('Ⳣ', ['ⳣ']), ('Ⳬ', ['ⳬ']),
   ('Ⳮ', ['ⳮ']), ('Ⳳ', ['ⳳ'])]

def lowerChunk32 : List (Char × List Char) :=
  [ ('Ꙁ', ['ꙁ']), ('Ꙃ', ['ꙃ']), ('Ꙅ', ['ꙅ']), ('Ꙇ', ['ꙇ']), ('Ꙉ', ['ꙉ']), ('Ꙋ', ['ꙋ']),
   ('Ꙍ', ['ꙍ']), ('Ꙏ', ['ꙏ']), ('Ꙑ', ['ꙑ']), ('Ꙓ', ['ꙓ']), ('Ꙕ', ['ꙕ']), ('Ꙗ', ['ꙗ']),
   ('Ꙙ', ['ꙙ']), ('Ꙛ', ['ꙛ']), ('Ꙝ', ['ꙝ']), ('Ꙟ', ['ꙟ']), ('Ꙡ', ['ꙡ']), ('Ꙣ', ['ꙣ']),
   ('Ꙥ', ['ꙥ']), ('Ꙧ', ['ꙧ']), ('Ꙩ', ['ꙩ']), ('Ꙫ', ['ꙫ']), ('Ꙭ', ['ꙭ']), ('Ꚁ', ['ꚁ']),
   ('Ꚃ', ['ꚃ']), ('Ꚅ', ['ꚅ']), ('Ꚇ', ['ꚇ']), ('Ꚉ', ['ꚉ']), ('Ꚋ', ['ꚋ']), ('Ꚍ', ['ꚍ']),
   ('Ꚏ', ['ꚏ']), ('Ꚑ', ['ꚑ'])]

def lowerChunk33 : List (Char × List Char) :=
  [ ('Ꚓ', ['ꚓ']), ('Ꚕ', ['ꚕ']), ('Ꚗ', ['ꚗ']), ('Ꚙ', ['ꚙ']), ('Ꚛ', ['ꚛ']), ('Ꜣ', ['ꜣ']),
   ('Ꜥ', ['ꜥ']), ('Ꜧ', ['ꜧ']), ('Ꜩ', ['ꜩ']), ('Ꜫ', ['ꜫ']), ('Ꜭ', ['ꜭ']), ('Ꜯ', ['ꜯ']),
   ('Ꜳ', ['ꜳ']), ('Ꜵ', ['ꜵ']), ('Ꜷ', ['ꜷ']), ('Ꜹ', ['ꜹ']), ('Ꜻ', ['ꜻ']), ('Ꜽ', ['ꜽ']),
   ('Ꜿ', ['ꜿ']), ('Ꝁ', ['ꝁ']), ('Ꝃ', ['ꝃ']), ('Ꝅ', ['ꝅ']), ('Ꝇ', ['ꝇ']), ('Ꝉ', ['ꝉ']),
   ('Ꝋ', ['ꝋ']), ('Ꝍ', ['ꝍ']), ('Ꝏ', ['ꝏ']), ('Ꝑ', ['ꝑ']), ('Ꝓ', ['ꝓ']), ('Ꝕ', ['ꝕ']),
   ('Ꝗ', ['ꝗ']), ('Ꝙ', ['ꝙ'])]

def lowerChunk34 : List (Char × List Char) :=
  [ ('Ꝛ', ['ꝛ']), ('Ꝝ', ['ꝝ']), ('Ꝟ', ['ꝟ']), ('Ꝡ', ['ꝡ']), ('Ꝣ', ['ꝣ']), ('Ꝥ', ['ꝥ']),
   ('Ꝧ', ['ꝧ']), ('Ꝩ', ['ꝩ']), ('Ꝫ', ['ꝫ']), ('Ꝭ', ['ꝭ']), ('Ꝯ', ['ꝯ']), ('Ꝺ', ['ꝺ']),
   ('Ꝼ', ['ꝼ']), ('Ᵹ', ['ᵹ']), ('Ꝿ', ['ꝿ']), ('Ꞁ', ['ꞁ']), ('Ꞃ', ['ꞃ']), ('Ꞅ', ['ꞅ']),
   ('Ꞇ', ['ꞇ']), ('Ꞌ', ['ꞌ']), ('Ɥ', ['ɥ']), ('Ꞑ', ['ꞑ']), ('Ꞓ', ['ꞓ']), ('Ꞗ', ['ꞗ']),
   ('Ꞙ', ['ꞙ']), ('Ꞛ', ['ꞛ']), ('Ꞝ', ['ꞝ']), ('Ꞟ', ['ꞟ']), ('Ꞡ', ['ꞡ']), ('Ꞣ', ['ꞣ']),
   ('Ꞥ', ['ꞥ']), ('Ꞧ', ['ꞧ'])]

def lowerChunk35 : List (Char × List Char) :=
  [ ('Ꞩ', ['ꞩ']), ('Ɦ', ['ɦ']), ('Ɜ', ['ɜ']), ('Ɡ', ['ɡ']), ('Ɬ', ['ɬ']), ('Ɪ', ['ɪ']),
   ('Ʞ', ['ʞ']), ('Ʇ', ['ʇ']), ('Ʝ', ['ʝ']), ('Ꭓ', ['ꭓ']), ('Ꞵ', ['ꞵ']), ('Ꞷ', ['ꞷ']),
   ('Ꞹ', ['ꞹ']), ('Ꞻ', ['ꞻ']), ('Ꞽ', ['ꞽ']), ('Ꞿ', ['ꞿ']), ('Ꟁ', ['ꟁ']), ('Ꟃ', ['ꟃ']),
   ('Ꞔ', ['ꞔ']), ('Ʂ', ['ʂ']), ('Ᶎ', ['ᶎ']), ('Ꟈ', ['ꟈ']), ('Ꟊ', ['ꟊ']), ('Ꟑ', ['ꟑ']),
   ('Ꟗ', ['ꟗ']), ('Ꟙ', ['ꟙ']), ('Ꟶ', ['ꟶ']), ('Ａ', ['ａ']), ('Ｂ', ['ｂ']), ('Ｃ', ['ｃ']),
   ('Ｄ', ['ｄ']), ('Ｅ', ['ｅ'])]

def lowerChunk36 : List (Char × List Char) :=
  [ ('Ｆ', ['ｆ']), ('Ｇ', ['ｇ']), ('Ｈ', ['ｈ']), ('Ｉ', ['ｉ']), ('Ｊ', ['ｊ']), ('Ｋ', ['ｋ']),
   ('Ｌ', ['ｌ']), ('Ｍ', ['ｍ']), ('Ｎ', ['ｎ']), ('Ｏ', ['ｏ']), ('Ｐ', ['ｐ']), ('Ｑ', ['ｑ']),
   ('Ｒ', ['ｒ']), ('Ｓ', ['ｓ']), ('Ｔ', ['ｔ']), ('Ｕ', ['ｕ']), ('Ｖ', ['ｖ']), ('Ｗ', ['ｗ']),
   ('Ｘ', ['ｘ']), ('Ｙ', ['ｙ']), ('Ｚ', ['ｚ']), ('𐐀', ['𐐨']), ('𐐁', ['𐐩']), ('𐐂', ['𐐪']),
   ('𐐃', ['𐐫']), ('𐐄', ['𐐬']), ('𐐅', ['𐐭']), ('𐐆', ['𐐮']), ('𐐇', ['𐐯']), ('𐐈', ['𐐰']),
   ('𐐉', ['𐐱']), ('𐐊', ['𐐲'])]

def lowerChunk37 : List (Char × List Char) :=
  [ ('𐐋', ['𐐳']), ('𐐌', ['𐐴']), ('𐐍', ['𐐵']), ('𐐎', ['𐐶']), ('𐐏', ['𐐷']), ('𐐐', ['𐐸']),
   ('𐐑', ['𐐹']), ('𐐒', ['𐐺']), ('𐐓', ['𐐻']), ('𐐔', ['𐐼']), ('𐐕', ['𐐽']), ('𐐖', ['𐐾']),
   ('𐐗', ['𐐿']), ('𐐘', ['𐑀']), ('𐐙', ['𐑁']), ('𐐚', ['𐑂']), ('𐐛', ['𐑃']), ('𐐜', ['𐑄']),
   ('𐐝', ['𐑅']), ('𐐞', ['𐑆']), ('𐐟', ['𐑇']), ('𐐠', ['𐑈']), ('𐐡', ['𐑉']), ('𐐢', ['𐑊']),
   ('𐐣', ['𐑋']), ('𐐤', ['𐑌']), ('𐐥', ['𐑍']), ('𐐦', ['𐑎']), ('𐐧', ['𐑏']), ('𐒰', ['𐓘']),
   ('𐒱', ['𐓙']), ('𐒲', ['𐓚'])]

def lowerChunk38 : List (Char × List Char) :=
  [ ('𐒳', ['𐓛']), ('𐒴', ['𐓜']), ('𐒵', ['𐓝']), ('𐒶', ['𐓞']), ('𐒷', ['𐓟']), ('𐒸', ['𐓠']),
   ('𐒹', ['𐓡']), ('𐒺', ['𐓢']), ('𐒻', ['𐓣']), ('𐒼', ['𐓤']), ('𐒽', ['𐓥']), ('𐒾', ['𐓦']),
   ('𐒿', ['𐓧']), ('𐓀', ['𐓨']), ('𐓁', ['𐓩']), ('𐓂', ['𐓪']), ('𐓃', ['𐓫']), ('𐓄', ['𐓬']),
   ('𐓅', ['𐓭']), ('𐓆', ['𐓮']), ('𐓇', ['𐓯']), ('𐓈', ['𐓰']), ('𐓉', ['𐓱']), ('𐓊', ['𐓲']),
   ('𐓋', ['𐓳']), ('𐓌', ['𐓴']), ('𐓍', ['𐓵']), ('𐓎', ['𐓶']), ('𐓏', ['𐓷']), ('𐓐', ['𐓸']),
   ('𐓑', ['𐓹']), ('𐓒', ['𐓺'])]

def lowerChunk39 : List (Char × List Char) :=
  [ ('𐓓', ['𐓻']), ('𐕰', ['𐖗']), ('𐕱', ['𐖘']), ('𐕲', ['𐖙']), ('𐕳', ['𐖚']), ('𐕴', ['𐖛']),
   ('𐕵', ['𐖜']), ('𐕶', ['𐖝']), ('𐕷', ['𐖞']), ('𐕸', ['𐖟']), ('𐕹', ['𐖠']), ('𐕺', ['𐖡']),
   ('𐕼', ['𐖣']), ('𐕽', ['𐖤']), ('𐕾', ['𐖥']), ('𐕿', ['𐖦']), ('𐖀', ['𐖧']), ('𐖁', ['𐖨']),
   ('𐖂', ['𐖩']), ('𐖃', ['𐖪']), ('𐖄', ['𐖫']), ('𐖅', ['𐖬']), ('𐖆', ['𐖭']), ('𐖇', ['𐖮']),
   ('𐖈', ['𐖯']), ('𐖉', ['𐖰']), ('𐖊', ['𐖱']), ('𐖌', ['𐖳']), ('𐖍', ['𐖴']), ('𐖎', ['𐖵']),
   ('𐖏', ['𐖶']), ('𐖐', ['𐖷'])]

def lowerChunk40 : List (Char × List Char) :=
  [ ('𐖑', ['𐖸']), ('𐖒', ['𐖹']), ('𐖔', ['𐖻']), ('𐖕', ['𐖼']), ('𐲀', ['𐳀']), ('𐲁', ['𐳁']),
   ('𐲂', ['𐳂']), ('𐲃', ['𐳃']), ('𐲄', ['𐳄']), ('𐲅', ['𐳅']), ('𐲆', ['𐳆']), ('𐲇', ['𐳇']),
   ('𐲈', ['𐳈']), ('𐲉', ['𐳉']), ('𐲊', ['𐳊']), ('𐲋', ['𐳋']), ('𐲌', ['𐳌']), ('𐲍', ['𐳍']),
   ('𐲎', ['𐳎']), ('𐲏', ['𐳏']), ('𐲐', ['𐳐']), ('𐲑', ['𐳑']), ('𐲒', ['𐳒']), ('𐲓', ['𐳓']),
   ('𐲔', ['𐳔']), ('𐲕', ['𐳕']), ('𐲖', ['𐳖']), ('𐲗', ['𐳗']), ('𐲘', ['𐳘']), ('𐲙', ['𐳙']),
   ('𐲚', ['𐳚']), ('𐲛', ['𐳛'])]

def lowerChunk41 : List (Char × List Char) :=
  [ ('𐲜', ['𐳜']), ('𐲝', ['𐳝']), ('𐲞', ['𐳞']), ('𐲟', ['𐳟']), ('𐲠', ['𐳠']), ('𐲡', ['𐳡']),
   ('𐲢', ['𐳢']), ('𐲣', ['𐳣']), ('𐲤', ['𐳤']), ('𐲥', ['𐳥']), ('𐲦', ['𐳦']), ('𐲧', ['𐳧']),
   ('𐲨', ['𐳨']), ('𐲩', ['𐳩']), ('𐲪', ['𐳪']), ('𐲫', ['𐳫']), ('𐲬', ['𐳬']), ('𐲭', ['𐳭']),
   ('𐲮', ['𐳮']), ('𐲯', ['𐳯']), ('𐲰', ['𐳰']), ('𐲱', ['𐳱']), ('𐲲', ['𐳲']), ('𑢠', ['𑣀']),
   ('𑢡', ['𑣁']), ('𑢢', ['𑣂']), ('𑢣', ['𑣃']), ('𑢤', ['𑣄']), ('𑢥', ['𑣅']), ('𑢦', ['𑣆']),
   ('𑢧', ['𑣇']), ('𑢨', ['𑣈'])]

def lowerChunk42 : List (Char × List Char) :=
  [ ('𑢩', ['𑣉']), ('𑢪', ['𑣊']), ('𑢫', ['𑣋']), ('𑢬', ['𑣌']), ('𑢭', ['𑣍']), ('𑢮', ['𑣎']),
   ('𑢯', ['𑣏']), ('𑢰', ['𑣐']), ('𑢱', ['𑣑']), ('𑢲', ['𑣒']), ('𑢳', ['𑣓']), ('𑢴', ['𑣔']),
   ('𑢵', ['𑣕']), ('𑢶', ['𑣖']), ('𑢷', ['𑣗']), ('𑢸', ['𑣘']), ('𑢹', ['𑣙']), ('𑢺', ['𑣚']),
   ('𑢻', ['𑣛']), ('𑢼', ['𑣜']), ('𑢽', ['𑣝']), ('𑢾', ['𑣞']), ('𑢿', ['𑣟']), ('𖹀', ['𖹠']),
   ('𖹁', ['𖹡']), ('𖹂', ['𖹢']), ('𖹃', ['𖹣']), ('𖹄', ['𖹤']), ('𖹅', ['𖹥']), ('𖹆', ['𖹦']),
   ('𖹇', ['𖹧']), ('𖹈', ['𖹨'])]

def lowerChunk43 : List (Char × List Char) :=
  [ ('𖹉', ['𖹩']), ('𖹊', ['𖹪']), ('𖹋', ['𖹫']), ('𖹌', ['𖹬']), ('𖹍', ['𖹭']), ('𖹎', ['𖹮']),
   ('𖹏', ['𖹯']), ('𖹐', ['𖹰']), ('𖹑', ['𖹱']), ('𖹒', ['𖹲']), ('𖹓', ['𖹳']), ('𖹔', ['𖹴']),
   ('𖹕', ['𖹵']), ('𖹖', ['𖹶']), ('𖹗', ['𖹷']), ('𖹘', ['𖹸']), ('𖹙', ['𖹹']), ('𖹚', ['𖹺']),
   ('𖹛', ['𖹻']), ('𖹜', ['𖹼']), ('𖹝', ['𖹽']), ('𖹞', ['𖹾']), ('𖹟', ['𖹿']), ('𞤀', ['𞤢']),
   ('𞤁', ['𞤣']), ('𞤂', ['𞤤']), ('𞤃', ['𞤥']), ('𞤄', ['𞤦']), ('𞤅', ['𞤧']), ('𞤆', ['𞤨']),
   ('𞤇', ['𞤩']), ('𞤈', ['𞤪'])]

def lowerChunk44 : List (Char × List Char) :=
  [ ('𞤉', ['𞤫']), ('𞤊', ['𞤬']), ('𞤋', ['𞤭']), ('𞤌', ['𞤮']), ('𞤍', ['𞤯']), ('𞤎', ['𞤰']),
   ('𞤏', ['𞤱']), ('𞤐', ['𞤲']), ('𞤑', ['𞤳']), ('𞤒', ['𞤴']), ('𞤓', ['𞤵']), ('𞤔', ['𞤶']),
   ('𞤕', ['𞤷']), ('𞤖', ['𞤸']), ('𞤗', ['𞤹']), ('𞤘', ['𞤺']), ('𞤙', ['𞤻']), ('𞤚', ['𞤼']),
   ('𞤛', ['𞤽']), ('𞤜', ['𞤾']), ('𞤝', ['𞤿']), ('𞤞', ['𞥀']), ('𞤟', ['𞥁']), ('𞤠', ['𞥂']),
   ('𞤡', ['𞥃'])]

/-- The full table: the chunks in code-point order of their keys. -/
def lowerTableC : List (Char × List Char) :=
  lowerChunk0 ++ lowerChunk1 ++ lowerChunk2 ++ lowerChunk3 ++ lowerChunk4 ++ lowerChunk5 ++
    lowerChunk6 ++ lowerChunk7 ++ lowerChunk8 ++ lowerChunk9 ++ lowerChunk10 ++ lowerChunk11 ++
    lowerChunk12 ++ lowerChunk13 ++ lowerChunk14 ++ lowerChunk15 ++ lowerChunk16 ++ lowerChunk17
    ++ lowerChunk18 ++ lowerChunk19 ++ lowerChunk20 ++ lowerChunk21 ++ lowerChunk22 ++
    lowerChunk23 ++ lowerChunk24 ++ lowerChunk25 ++ lowerChunk26 ++ lowerChunk27 ++ lowerChunk28
    ++ lowerChunk29 ++ lowerChunk30 ++ lowerChunk31 ++ lowerChunk32 ++ lowerChunk33 ++
    lowerChunk34 ++ lowerChunk35 ++ lowerChunk36 ++ lowerChunk37 ++ lowerChunk38 ++ lowerChunk39
    ++ lowerChunk40 ++ lowerChunk41 ++ lowerChunk42 ++ lowerChunk43 ++ lowerChunk44

/-- Lookup of the lowercase mapping: a range-guided search over the
chunks; agrees with association-list lookup over `lowerTableC`
(`lowerFind_some_mem`, `lowerFind_complete`). -/
def lowerFind (c : Char) : Option (List Char) :=
  (
  if c.toNat < 7806 then
    if c.toNat < 1170 then
      if c.toNat < 459 then
        if c.toNat < 272 then
          if c.toNat < 198 then
            lowerChunk0.find? (fun e => e.1 == c)
          else
            lowerChunk1.find? (fun e => e.1 == c)
        else
          if c.toNat < 338 then
            lowerChunk2.find? (fun e => e.1 == c)
          else
            if c.toNat < 399 then
              lowerChunk3.find? (fun e => e.1 == c)
            else
              lowerChunk4.find? (fun e => e.1 == c)
      else
        if c.toNat < 933 then
          if c.toNat < 522 then
            lowerChunk5.find? (fun e => e.1 == c)
          else
            if c.toNat < 588 then
              lowerChunk6.find? (fun e => e.1 == c)
            else
              lowerChunk7.find? (fun e => e.1 == c)
        else
          if c.toNat < 1029 then
            lowerChunk8.find? (fun e => e.1 == c)
          else
            if c.toNat < 1061 then
              lowerChunk9.find? (fun e => e.1 == c)
            else
              lowerChunk10.find? (fun e => e.1 == c)
    else
      if c.toNat < 5027 then
        if c.toNat < 1298 then
          if c.toNat < 1234 then
            lowerChunk11.find? (fun e => e.1 == c)
          else
            lowerChunk12.find? (fun e => e.1 == c)
        else
          if c.toNat < 1346 then
            lowerChunk13.find? (fun e => e.1 == c)
          else
            if c.toNat < 4267 then
              lowerChunk14.find? (fun e => e.1 == c)
            else
              lowerChunk15.find? (fun e => e.1 == c)
      else
        if c.toNat < 7325 then
          if c.toNat < 5059 then
            lowerChunk16.find? (fun e => e.1 == c)
          else
            if c.toNat < 5091 then
              lowerChunk17.find? (fun e => e.1 == c)
            else
              lowerChunk18.find? (fun e => e.1 == c)
        else
          if c.toNat < 7359 then
            lowerChunk19.find? (fun e => e.1 == c)
          else
            if c.toNat < 7742 then
              lowerChunk20.find? (fun e => e.1 == c)
            else
              lowerChunk21.find? (fun e => e.1 == c)
  else
    if c.toNat < 42642 then
      if c.toNat < 8498 then
        if c.toNat < 7947 then
          if c.toNat < 7878 then
            lowerChunk22.find? (fun e => e.1 == c)
          else
            lowerChunk23.find? (fun e => e.1 == c)
        else
          if c.toNat < 8013 then
            lowerChunk24.find? (fun e => e.1 == c)
          else
            if c.toNat < 8107 then
              lowerChunk25.find? (fun e => e.1 == c)
            else
              lowerChunk26.find? (fun e => e.1 == c)
      else
        if c.toNat < 11367 then
          if c.toNat < 9412 then
            lowerChunk27.find? (fun e => e.1 == c)
          else
            if c.toNat < 11284 then
              lowerChunk28.find? (fun e => e.1 == c)
            else
              lowerChunk29.find? (fun e => e.1 == c)
        else
          if c.toNat < 11434 then
            lowerChunk30.find? (fun e => e.1 == c)
          else
            if c.toNat < 42560 then
              lowerChunk31.find? (fun e => e.1 == c)
            else
              lowerChunk32.find? (fun e => e.1 == c)
    else
      if c.toNat < 66771 then
        if c.toNat < 65318 then
          if c.toNat < 42842 then
            lowerChunk33.find? (fun e => e.1 == c)
          else
            if c.toNat < 42920 then
              lowerChunk34.find? (fun e => e.1 == c)
            else
              lowerChunk35.find? (fun e => e.1 == c)
        else
          if c.toNat < 66571 then
            lowerChunk36.find? (fun e => e.1 == c)
          else
            if c.toNat < 66739 then
              lowerChunk37.find? (fun e => e.1 == c)
            else
              lowerChunk38.find? (fun e => e.1 == c)
      else
        if c.toNat < 71849 then
          if c.toNat < 66961 then
            lowerChunk39.find? (fun e => e.1 == c)
          else
            if c.toNat < 68764 then
              lowerChunk40.find? (fun e => e.1 == c)
            else
              lowerChunk41.find? (fun e => e.1 == c)
        else
          if c.toNat < 93769 then
            lowerChunk42.find? (fun e => e.1 == c)
          else
            if c.toNat < 125193 then
              lowerChunk43.find? (fun e => e.1 == c)
            else
              lowerChunk44.find? (fun e => e.1 == c)
  ).map (fun e => e.2)

/-- The lowercase mapping of one code point (default mapping: the table
entry, or the character itself). -/
def lowerMappingC (c : Char) : List Char := (lowerFind c).getD [c]

/-- A character is untouched by lowercasing: no table entry, and not
the context-sensitive U+03A3. -/
def lowerFixedC (c : Char) : Bool := (lowerFind c).isNone && c != 'Σ'

/-- The code points one original character contributes to the lowercased
text: the Final_Sigma branch, or the default mapping. -/
def lowerBlock (sigmaCtx : List Char → List Char → Bool) (pre : List Char) (c : Char)
    (cs : List Char) : List Char :=
  if c == 'Σ' && sigmaCtx pre cs then ['ς'] else lowerMappingC c

/-- `toLowerCase`, processing the text left to right; `pre` is the
already-scanned original prefix (Final_Sigma looks at the original text
on both sides of the character). -/
def toLowerGo (sigmaCtx : List Char → List Char → Bool) : List Char → List Char → List Char
  | _, [] => []
  | pre, c :: cs => lowerBlock sigmaCtx pre c cs ++ toLowerGo sigmaCtx (pre ++ [c]) cs

def trimChars (l : List Char) : List Char :=
  ((l.dropWhile jsWhitespace).reverse.dropWhile jsWhitespace).reverse

def collapseWs : List Char → List Char
  | [] => []
  | c :: cs =>
    if jsWhitespace c then ' ' :: collapseWs (cs.dropWhile jsWhitespace)
    else c :: collapseWs cs
termination_by l => l.length
decreasing_by
  · have := (List.dropWhile_suffix (l := cs) jsWhitespace).length_le
    simp only [List.length_cons]
    omega
  · simp

def normList (sigmaCtx : List Char → List Char → Bool) (l : List Char) : List Char :=
  collapseWs (toLowerGo sigmaCtx [] (trimChars l))

/-- `norm` from the source: trim, lowercase (full Unicode, with
Final_Sigma context test `sigmaCtx`), collapse whitespace runs to one
space. -/
def norm (sigmaCtx : List Char → List Char → Bool) (s : String) : String :=
  String.mk (normList sigmaCtx s.data)



/-- The first character, if any, is not whitespace. -/
def noWsHead (l : List Char) : Bool :=
  match l.head? with
  | none => true
  | some c => !jsWhitespace c

/-- The last character, if any, is not whitespace. -/
def noWsLast (l : List Char) : Bool :=
  match l.getLast? with
  | none => true
  | some c => !jsWhitespace c

/-- Every whitespace character is a plain space and is followed by a
non-whitespace character (or the end): the shape `collapseWs` leaves
whitespace in. -/
def goodRun : List Char → Bool
  | [] => true
  | c :: cs => (if jsWhitespace c then c == ' ' && noWsHead cs else true) && goodRun cs


/-! ## JavaScript values

An inductive JSON-like type for the call options handled by the
fingerprinter.  `undef` is JavaScript `undefined`; property access on a
missing key yields `undef`.  Numbers are modelled as integers (no claim
exercises fractional serialization). -/

inductive Js where
  | undef : Js
  | null : Js
  | bool : Bool → Js
  | num : Int → Js
  | str : String → Js
  | arr : List Js → Js
  | obj : List (String × Js) → Js
deriving Repr

def Js.truthy : Js → Bool
  | .undef => false
  | .null => false
  | .bool b => b
  | .num n => n != 0
  | .str s => s != ""
  | .arr _ => true
  | .obj _ => true

def Js.nullish : Js → Bool
  | .undef => true
  | .null => true
  | _ => false

/-- Property access `o.k`: a missing key (or access on a non-object) is `undefined`. -/
def getField (o : Js) (k : String) : Js :=
  match o with
  | .obj fields => ((fields.find? (fun kv => kv.1 == k)).map (fun kv => kv.2)).getD .undef
  | _ => .undef

def escapeJsonChar (c : Char) : List Char :=
  if c = '"' then ['\\', '"']
  else if c = '\\' then ['\\', '\\']
  else if c = '\n' then ['\\', 'n']
  else if c = '\t' then ['\\', 't']
  else if c = '\r' then ['\\', 'r']
  else [c]

def jsonQuote (s : String) : String :=
  "\"" ++ String.mk (s.data.flatMap escapeJsonChar) ++ "\""

/-- `JSON.stringify`.  Returns `none` exactly when JavaScript returns
`undefined` (top-level `undefined`); object entries whose value
serializes to `undefined` are dropped, array entries become `"null"`. -/
def jsonStringify : Js → Option String
  | .undef => none
  | .null => some "null"
  | .bool b => some (if b then "true" else "false")
  | .num n => some (toString n)
  | .str s => some (jsonQuote s)
  | .arr xs => some ("[" ++ String.intercalate "," (jsonStringifyArr xs) ++ "]")
  | .obj fields => some ("\x7b" ++ String.intercalate "," (jsonStringifyObj fields) ++ "\x7d")
where
  jsonStringifyArr : List Js → List String
    | [] => []
    | x :: xs => ((jsonStringify x).getD "null") :: jsonStringifyArr xs
  jsonStringifyObj : List (String × Js) → List String
    | [] => []
    | (k, v) :: fields =>
      match jsonStringify v with
      | none => jsonStringifyObj fields
      | some sv => (jsonQuote k ++ ":" ++ sv) :: jsonStringifyObj fields

/-- `String(v)` coercion for the values the fingerprinter can meet. -/
def jsToString : Js → String
  | .undef => "undefined"
  | .null => "null"
  | .bool b => if b then "true" else "false"
  | .num n => toString n
  | .str s => s
  | .arr xs => String.intercalate "," (jsToStringArr xs)
  | .obj _ => "[object Object]"
where
  jsToStringArr : List Js → List String
    | [] => []
    | x :: xs => (if x.nullish then "" else jsToString x) :: jsToStringArr xs

/-! ## Scope tuple and composite id -/

/-- The scope object built by `buildScope`; field order is the object
literal's insertion order, which `Object.values` preserves. -/
structure Scope where
  llmModel : String
  systemHash : String
  params : String
  toolsHash : String
deriving DecidableEq, Repr

/-- `buildScope(options)` from the source.  `options.model?.modelId ??
String(options.model ?? "")`, `sha(options.system ?? "")`,
`sha(JSON.stringify({temperature, topP}))`,
`sha(JSON.stringify(options.tools ?? {}))`. -/
def buildScope (options : Js) : Scope :=
  let model := getField options "model"
  let modelId := if model.nullish then Js.undef else getField model "modelId"
  let sys := getField options "system"
  { llmModel :=
      if modelId.nullish then jsToString (if model.nullish then Js.str "" else model)
      else jsToString modelId
    systemHash := sha (if sys.nullish then "" else jsToString sys)
    params := sha ((jsonStringify (Js.obj
      [("temperature", getField options "temperature"), ("topP", getField options "topP")])).getD "")
    toolsHash :=
      let tools := getField options "tools"
      sha ((jsonStringify (if tools.nullish then Js.obj [] else tools)).getD "") }

/-- `Object.values(scope).join("|")` (`promptScope` in both wrappers). -/
def scopeJoin (s : Scope) : String :=
  String.intercalate "|" [s.llmModel, s.systemHash, s.params, s.toolsHash]

/-- The id computed in the prompt variant's flush/generate write-back:
`"llm:" + sha(promptScope + "|" + promptNorm)`. -/
def semanticCacheId (s : Scope) (t : String) : String :=
  "llm:" ++ sha (scopeJoin s ++ "|" ++ t)

/-- The id computed in the intent variant's flush/generate write-back:
`"intent:" + sha(promptScope + "|" + intentNorm)`. -/
def intentCacheId (s : Scope) (t : String) : String :=
  "intent:" ++ sha (scopeJoin s ++ "|" ++ t)

/-! ## Cache input text (prompt variant `getCacheKey`) -/

inductive JsErr where
  | typeErr : JsErr
deriving DecidableEq, Repr

/-- One element of `canonicalizeMessages`' result:
`{role: m.role, content: typeof m.content === "string" ? m.content : JSON.stringify(m.content)}`.
`JSON.stringify(undefined)` is `undefined`, so the content entry can be
dropped by the outer stringify. -/
def canonMsg (m : Js) : Js :=
  Js.obj [("role", getField m "role"),
          ("content",
            match getField m "content" with
            | .str s => Js.str s
            | other => match jsonStringify other with
                       | some s => Js.str s
                       | none => Js.undef)]

/-- `canonicalizeMessages(msgs)`: `msgs.map(...)` throws a `TypeError`
when `msgs` is not an array (no `.map` method). -/
def canonicalizeMessages (msgs : Js) : Except JsErr (List Js) :=
  match msgs with
  | .arr ms => .ok (ms.map canonMsg)
  | _ => .error .typeErr

/-- `getCacheKey(options)` of the prompt variant. -/
def getCacheKey (useFullMessages : Bool) (options : Js) : Except JsErr String :=
  let msgs := getField options "messages"
  if msgs.truthy then
    let messages : List Js := match msgs with | .arr l => l | _ => []
    if !useFullMessages && messages.length > 0 then
      .ok ((jsonStringify (canonMsg (messages.getLastD .undef))).getD "undefined")
    else
      match canonicalizeMessages msgs with
      | .error e => .error e
      | .ok cs => .ok ((jsonStringify (Js.arr cs)).getD "undefined")
  else if (getField options "prompt").truthy then
    .ok (jsToString (getField options "prompt"))
  else
    .ok ""

def Js.isArr : Js → Bool
  | .arr _ => true
  | _ => false

/-! ## Lookup policy (`checkSemanticCache` / `checkIntentCache`)

`index.query` candidates are `(id, score, metadata)`; scores are modelled
as rationals.  The `find` predicate is translated verbatim. -/

/-- Metadata of an index entry as the lookup reads it; the four scope
fields are the only ones compared (the stored entry also carries the
normalized prompt/intent text). -/
structure CandidateMeta where
  text : String
  llmModel : String
  systemHash : String
  params : String
  toolsHash : String
deriving DecidableEq, Repr

structure Candidate where
  id : String
  score : Rat
  metadata : Option CandidateMeta
deriving DecidableEq, Repr

/-- Body of the `result.find((m) => …)` callback. -/
def hitPredicate (threshold : Rat) (scope : Scope) (m : Candidate) : Bool :=
  if m.score < threshold then false
  else
    match m.metadata with
    | none => false
    | some md =>
      md.llmModel == scope.llmModel && md.systemHash == scope.systemHash
        && md.params == scope.params && md.toolsHash == scope.toolsHash

/-- `result.find(…)`: the first qualifying candidate, if any. -/
def selectCandidate (threshold : Rat) (scope : Scope) (candidates : List Candidate) : Option Candidate :=
  candidates.find? (hitPredicate threshold scope)

/-- The claim's hit condition, stated as the spec words it: score at or
above threshold, non-null metadata, and exact scope equality. -/
def HitCond (threshold : Rat) (scope : Scope) (m : Candidate) : Prop :=
  threshold ≤ m.score ∧ ∃ md, m.metadata = some md ∧
    md.llmModel = scope.llmModel ∧ md.systemHash = scope.systemHash ∧
    md.params = scope.params ∧ md.toolsHash = scope.toolsHash

/-! ## Stream parts, rehydration and the replay decision -/

/-- A recorded timestamp value: the JSON string read back from the
payload store, or a `Date` object (modelled by its source string). -/
inductive TsVal where
  | tsStr : String → TsVal
  | tsDate : String → TsVal
deriving DecidableEq, Repr

/-- A stream chunk.  `otherPart` stands for every chunk type the
middleware does not inspect; it must be forwarded and replayed verbatim. -/
inductive StreamPart where
  | textStart : Option String → StreamPart
  | textDelta : Option String → String → StreamPart
  | finishPart : String → Option String → StreamPart
  | responseMetadata : Option TsVal → String → StreamPart
  | otherPart : String → String → StreamPart
deriving DecidableEq, Repr

/-- JavaScript truthiness of `p.timestamp`. -/
def tsTruthy : Option TsVal → Bool
  | none => false
  | some (.tsStr s) => s != ""
  | some (.tsDate _) => true

/-- `new Date(x)` applied to a recorded timestamp. -/
def dateOfTs : TsVal → TsVal
  | .tsStr s => .tsDate s
  | .tsDate s => .tsDate s

/-- The map applied to `cached.streamParts`:
`p.type === "response-metadata" && p.timestamp ? {...p, timestamp: new Date(p.timestamp)} : p`. -/
def rehydratePart (p : StreamPart) : StreamPart :=
  match p with
  | .responseMetadata ts extra =>
    if tsTruthy ts then
      .responseMetadata ((ts.map dateOfTs)) extra
    else
      .responseMetadata ts extra
  | p => p

/-- The chunk sequence handed to `simulateReadableStream` on a streamParts hit. -/
def replayFromParts (parts : List StreamPart) : List StreamPart :=
  parts.map rehydratePart

def timestampPresent : StreamPart → Bool
  | .responseMetadata (some _) _ => true
  | _ => false

def timestampIsDate : StreamPart → Bool
  | .responseMetadata (some (.tsDate _)) _ => true
  | _ => false

/-- The cached payload shape read from the payload store on the stream
path (`streamParts?`, legacy `text`/`id`/`usage`). -/
structure Payload where
  streamParts : Option (List StreamPart)
  text : Option String
  payloadId : Option String
  usage : Option String
deriving DecidableEq, Repr

def textTruthy : Option String → Bool
  | none => false
  | some s => s != ""

/-- Chunk list built inside the `cached && cacheMode !== "refresh"`
branch of `wrapStream`: `streamParts` if present, else the legacy
synthesis if `cached.text` is truthy, else the empty `chunks` array. -/
def replayChunks (cached : Payload) : List StreamPart :=
  match cached.streamParts with
  | some parts => replayFromParts parts
  | none =>
    if textTruthy cached.text then
      [.textStart cached.payloadId,
       .textDelta cached.payloadId ((cached.text).getD ""),
       .finishPart "stop" cached.usage]
    else []

inductive StreamOutcome where
  | replay : List StreamPart → StreamOutcome
  | live : StreamOutcome
deriving DecidableEq, Repr

/-- What `wrapStream` returns before any capture: a simulated stream of
`replayChunks` when a cached payload exists and the mode is not
`"refresh"`, otherwise the live `doStream()` path. -/
def wrapStreamDecision (cacheMode : String) (cached : Option Payload) : StreamOutcome :=
  match cached with
  | some c => if cacheMode != "refresh" then .replay (replayChunks c) else .live
  | none => .live

/-! ## Write-back (`storeInCache`) as an operation trace

Remote effects are explicit: `acquired` is the result of the NX lock
`redis.set(lockKey, "1", {nx: true, ex: 15})`; `setErr`/`upsertErr` are
the outcomes of `redis.set(id, data, {ex: ttl})` and `index.upsert`.
The returned list is the sequence of store operations attempted, in
order, together with (for the intent variant) the emitted step events
and the rejection the async function propagates. -/

inductive CacheOp where
  | setnxLock : String → CacheOp
  | setPayload : String → CacheOp
  | upsertVec : String → CacheOp
  | delKey : String → CacheOp
deriving DecidableEq, Repr

inductive StepEvent where
  | cacheStoreStart : StepEvent
  | cacheStoreComplete : StepEvent
  | cacheStoreErrorEvent : StepEvent
deriving DecidableEq, Repr

/-- `storeInCache` of the prompt variant (no step events, no catch; a
`set`/`upsert` rejection escapes through the `finally` that deletes the
lock). -/
def storeInCacheSem (id : String) (acquired : Bool) (setErr upsertErr : Option String) :
    List CacheOp × Option String :=
  let lockKey := "lock:" ++ id
  if !acquired then ([.setnxLock lockKey], none)
  else
    match setErr with
    | some e => ([.setnxLock lockKey, .setPayload id, .delKey lockKey], some e)
    | none =>
      match upsertErr with
      | some e => ([.setnxLock lockKey, .setPayload id, .upsertVec id, .delKey lockKey], some e)
      | none => ([.setnxLock lockKey, .setPayload id, .upsertVec id, .delKey lockKey], none)

/-- `storeInCache` of the intent variant: emits `cache-store-start`,
then on failure emits `cache-store-error` and rethrows (`throw error`)
after the `finally` deletes the lock; on success emits
`cache-store-complete`. -/
def storeInCacheIntent (id : String) (acquired : Bool) (setErr upsertErr : Option String) :
    List CacheOp × List StepEvent × Option String :=
  let lockKey := "lock:" ++ id
  if !acquired then ([.setnxLock lockKey], [.cacheStoreStart], none)
  else
    match setErr with
    | some e =>
      ([.setnxLock lockKey, .setPayload id, .delKey lockKey],
       [.cacheStoreStart, .cacheStoreErrorEvent], some e)
    | none =>
      match upsertErr with
      | some e =>
        ([.setnxLock lockKey, .setPayload id, .upsertVec id, .delKey lockKey],
         [.cacheStoreStart, .cacheStoreErrorEvent], some e)
      | none =>
        ([.setnxLock lockKey, .setPayload id, .upsertVec id, .delKey lockKey],
         [.cacheStoreStart, .cacheStoreComplete], none)

/-- Tail of `wrapGenerate` on a miss: `await storeInCache(…); return
result;` with no surrounding catch — a write-back rejection rejects the
wrapped call. -/
def wrapGenerateMissResult (genResult : String) (storeOutcome : Option String) :
    Except String String :=
  match storeOutcome with
  | some e => .error e
  | none => .ok genResult

/-! ## Configuration schema and factory-time validation

The zod schema is embedded with its v4 semantics: a `.default()` value
short-circuits and is not re-parsed, so env-derived credentials are only
checked by `validateEnvConfig`.  The `z.url()` format check is an
external validator and is a parameter `urlOk`; the repository's own test
suite documents that the empty string fails it ("Invalid URL"). -/

structure CredPair where
  url : String
  token : String
deriving DecidableEq, Repr

structure ConfigInput where
  vector : Option CredPair
  redis : Option CredPair
  threshold : Option Rat
  ttl : Option Rat
deriving DecidableEq, Repr

structure EnvVars where
  vectorRestUrl : String
  vectorRestToken : String
  redisRestUrl : String
  redisRestToken : String
deriving DecidableEq, Repr

structure ParsedConfig where
  vector : CredPair
  redis : CredPair
  threshold : Rat
  ttl : Rat
deriving DecidableEq, Repr

/-- zod issues raised for an explicitly provided credentials object:
`z.url()` and `z.string().min(1)`. -/
def credIssues (urlOk : String → Bool) (path : String) (p : CredPair) : List String :=
  (if urlOk p.url then [] else ["Invalid URL: " ++ path ++ ".url"])
    ++ (if p.token.length ≥ 1 then [] else ["Too small: " ++ path ++ ".token"])

/-- `semanticCacheConfigSchema.parse`: one `ZodError` carrying every
schema issue, or the parsed config with defaults applied.  Omitted
sections default from the environment and are not schema-validated
(zod v4 `.default()` short-circuit). -/
def schemaParse (urlOk : String → Bool) (env : EnvVars) (cfg : ConfigInput) :
    Except (List String) ParsedConfig :=
  let issues :=
    (match cfg.vector with
     | some p => credIssues urlOk "vector" p
     | none => [])
    ++ (match cfg.redis with
        | some p => credIssues urlOk "redis" p
        | none => [])
    ++ (match cfg.threshold with
        | some t => (if 0 ≤ t then [] else ["Too small: threshold"])
            ++ (if t ≤ 1 then [] else ["Too big: threshold"])
        | none => [])
    ++ (match cfg.ttl with
        | some t => if 0 < t then [] else ["Too small: ttl"]
        | none => [])
  if issues.isEmpty then
    .ok { vector := cfg.vector.getD ⟨env.vectorRestUrl, env.vectorRestToken⟩
          redis := cfg.redis.getD ⟨env.redisRestUrl, env.redisRestToken⟩
          threshold := cfg.threshold.getD (92 / 100)
          ttl := cfg.ttl.getD (60 * 60 * 24 * 14) }
  else .error issues

def vectorUrlMsg : String :=
  "Vector URL is required. Provide vector.url or set VECTOR_REST_URL environment variable."

def vectorTokenMsg : String :=
  "Vector token is required. Provide vector.token or set VECTOR_REST_TOKEN environment variable."

def redisUrlMsg : String :=
  "Redis URL is required. Provide redis.url or set REDIS_REST_URL environment variable."

def redisTokenMsg : String :=
  "Redis token is required. Provide redis.token or set REDIS_REST_TOKEN environment variable."

/-- The aggregated error list built by `validateEnvConfig`. -/
def envErrors (p : ParsedConfig) : List String :=
  (if p.vector.url = "" then [vectorUrlMsg] else [])
    ++ (if p.vector.token = "" then [vectorTokenMsg] else [])
    ++ (if p.redis.url = "" then [redisUrlMsg] else [])
    ++ (if p.redis.token = "" then [redisTokenMsg] else [])

/-- `validateEnvConfig`: throws one error carrying every collected
message when any credential is empty. -/
def validateEnvConfig (p : ParsedConfig) : Except (List String) Unit :=
  if envErrors p = [] then .ok () else .error (envErrors p)

/-- Factory-time validation of `createSemanticCache`/`createIntentMemory`:
`schema.parse(config)` then `validateEnvConfig(parsed)`. -/
def factoryValidation (urlOk : String → Bool) (env : EnvVars) (cfg : ConfigInput) :
    Except (List String) ParsedConfig :=
  match schemaParse urlOk env cfg with
  | .error e => .error e
  | .ok p =>
    match validateEnvConfig p with
    | .error e => .error e
    | .ok _ => .ok p

/-! ## Concrete demonstration inputs used by witnesses and counterexamples -/

def demoScope : Scope := ⟨"gpt-4", "h1", "h2", "h3"⟩

def demoPartsC3 : List StreamPart :=
  [.responseMetadata (some (.tsStr "2024-01-01T00:00:00.000Z")) "m",
   .textDelta (some "1") "Hello"]

def emptyTsPart : StreamPart := .responseMetadata (some (.tsStr "")) "m"

def emptyPayload : Payload := ⟨none, none, none, none⟩

def demoOptsC9 : Js := Js.obj [("messages", Js.str "hi")]

def demoOptsC10a : Js := Js.obj [("temperature", Js.undef), ("topP", Js.undef)]

def demoOptsC10b : Js := Js.obj []

def mixedCfg : ConfigInput := ⟨some ⟨"", ""⟩, none, none, none⟩

def thresholdCfg : ConfigInput := ⟨none, none, some 2, none⟩

def ttlCfg : ConfigInput := ⟨none, none, none, some 0⟩

def emptyEnv : EnvVars := ⟨"", "", "", ""⟩

/-- Demonstration instantiation of the external `z.url()` validator:
the repository's tests document that the empty string is rejected
("Invalid URL"). -/
def urlOkDemo (s : String) : Bool := s != ""

/-! ## Helper lemmas -/

theorem find?_eq_some_first {α : Type} (p : α → Bool) (c : α) (l : List α) :
    l.find? p = some c ↔
      p c = true ∧ ∃ l1 l2, l = l1 ++ c :: l2 ∧ ∀ x ∈ l1, p x = false := by
  induction l with
  | nil => simp
  | cons a tl ih =>
    by_cases h : p a
    · rw [List.find?_cons_of_pos _ h]
      constructor
      · intro hc
        injection hc with hc
        subst hc
        exact ⟨h, [], tl, rfl, by simp⟩
      · rintro ⟨hpc, l1, l2, heq, hfail⟩
        cases l1 with
        | nil =>
          simp only [List.nil_append, List.cons.injEq] at heq
          rw [heq.1]
        | cons y ys =>
          simp only [List.cons_append, List.cons.injEq] at heq
          have hy := hfail y (by simp)
          rw [heq.1] at h
          simp [h] at hy
    · rw [List.find?_cons_of_neg _ h, ih]
      constructor
      · rintro ⟨hpc, l1, l2, heq, hfail⟩
        refine ⟨hpc, a :: l1, l2, by simp [heq], ?_⟩
        intro x hx
        rcases List.mem_cons.1 hx with hx | hx
        · subst hx
          exact Bool.eq_false_iff.mpr h
        · exact hfail x hx
      · rintro ⟨hpc, l1, l2, heq, hfail⟩
        cases l1 with
        | nil =>
          simp only [List.nil_append, List.cons.injEq] at heq
          rw [heq.1] at h
          simp [hpc] at h
        | cons y ys =>
          simp only [List.cons_append, List.cons.injEq] at heq
          exact ⟨hpc, ys, l2, heq.2, fun x hx => hfail x (List.mem_cons_of_mem _ hx)⟩

theorem hitPredicate_iff (threshold : Rat) (scope : Scope) (m : Candidate) :
    hitPredicate threshold scope m = true ↔ HitCond threshold scope m := by
  unfold hitPredicate HitCond
  by_cases hs : m.score < threshold
  · simp only [if_pos hs, Bool.false_eq_true, false_iff]
    rintro ⟨h1, -⟩
    exact absurd h1 (not_le.mpr hs)
  · rw [if_neg hs]
    cases hm : m.metadata with
    | none => simp
    | some md =>
      simp [Bool.and_eq_true, beq_iff_eq, not_lt.mp hs, and_assoc]

theorem scopeJoin_eq (s : Scope) :
    scopeJoin s = s.llmModel ++ "|" ++ s.systemHash ++ "|" ++ s.params ++ "|" ++ s.toolsHash := by
  simp [scopeJoin, String.intercalate, String.intercalate.go, String.append_assoc]

/-! ## Claim theorems -/

/-- C1: the lookup (`result.find` in `checkSemanticCache` /
`checkIntentCache`) selects a candidate iff it is the first in returned
order with score at or above the threshold, non-null metadata, and the
four metadata scope fields exactly equal to the scope tuple; no
candidate failing any of these conditions is ever selected. -/
theorem lookup_selects_first_qualifying (threshold : Rat) (scope : Scope)
    (cands : List Candidate) (c : Candidate) :
    selectCandidate threshold scope cands = some c ↔
      HitCond threshold scope c ∧
        ∃ l1 l2, cands = l1 ++ c :: l2 ∧ ∀ x ∈ l1, ¬ HitCond threshold scope x := by
  rw [selectCandidate, find?_eq_some_first]
  constructor
  · rintro ⟨hpc, l1, l2, heq, hfail⟩
    refine ⟨(hitPredicate_iff _ _ _).1 hpc, l1, l2, heq, fun x hx hc => ?_⟩
    have := hfail x hx
    rw [(hitPredicate_iff _ _ _).2 hc] at this
    exact Bool.true_eq_false.mp this
  · rintro ⟨hc, l1, l2, heq, hfail⟩
    refine ⟨(hitPredicate_iff _ _ _).2 hc, l1, l2, heq, fun x hx => ?_⟩
    have := hfail x hx
    rw [← hitPredicate_iff _ _ _] at this
    exact Bool.eq_false_iff.mpr this

/-- C2: the composite cache id is a pure function of the scope tuple and
the normalized cache text, and equals the variant's prefix followed by
the hex SHA-256 of the pipe-join of the four scope fields, a pipe, and
the text. -/
theorem composite_id_pure_and_formula (s s' : Scope) (t t' : String) :
    (s = s' → t = t' →
      semanticCacheId s t = semanticCacheId s' t' ∧ intentCacheId s t = intentCacheId s' t')
    ∧ semanticCacheId s t
        = "llm:" ++ sha (String.intercalate "|" [s.llmModel, s.systemHash, s.params, s.toolsHash] ++ "|" ++ t)
    ∧ intentCacheId s t
        = "intent:" ++ sha (String.intercalate "|" [s.llmModel, s.systemHash, s.params, s.toolsHash] ++ "|" ++ t)
    ∧ semanticCacheId s t
        = "llm:" ++ sha (s.llmModel ++ "|" ++ s.systemHash ++ "|" ++ s.params ++ "|" ++ s.toolsHash ++ "|" ++ t) := by
  refine ⟨?_, rfl, rfl, ?_⟩
  · intro hs ht
    subst hs
    subst ht
    exact ⟨rfl, rfl⟩
  · rw [semanticCacheId, scopeJoin_eq]

/-- Witness for C2 at a concrete scope and text. -/
theorem composite_id_pure_and_formula_witness :
    semanticCacheId demoScope "what is an agent?" = semanticCacheId demoScope "what is an agent?"
    ∧ intentCacheId demoScope "what is an agent?" = intentCacheId demoScope "what is an agent?" :=
  (composite_id_pure_and_formula demoScope demoScope "what is an agent?" "what is an agent?").1 rfl rfl

/-- C3 counterexample: a `response-metadata` chunk whose recorded
`timestamp` is the empty string carries a timestamp (the field is
present as a string) but is replayed verbatim, not rehydrated to a Date
value, because the source guards rehydration with the truthiness test
`p.timestamp`. -/
theorem replay_rehydration_cex :
    replayFromParts [emptyTsPart] = [emptyTsPart]
    ∧ timestampPresent emptyTsPart = true
    ∧ timestampIsDate (rehydratePart emptyTsPart) = false := by
  refine ⟨?_, rfl, rfl⟩
  rfl

/-- C3 amended: the replayed chunk sequence equals the captured one
element-for-element, except that a `response-metadata` chunk carrying a
non-empty timestamp string has it rehydrated to a Date value; every
other chunk (including unknown chunk types) is replayed verbatim in
captured order. -/
theorem replay_equals_captured_mod_rehydration (parts : List StreamPart) :
    (replayFromParts parts).length = parts.length
    ∧ (∀ i (h1 : i < parts.length) (h2 : i < (replayFromParts parts).length),
        (replayFromParts parts).get ⟨i, h2⟩ = parts.get ⟨i, h1⟩
        ∨ ∃ s extra, s ≠ ""
            ∧ parts.get ⟨i, h1⟩ = .responseMetadata (some (.tsStr s)) extra
            ∧ (replayFromParts parts).get ⟨i, h2⟩ = .responseMetadata (some (.tsDate s)) extra)
    ∧ (∀ i (h1 : i < parts.length) (h2 : i < (replayFromParts parts).length) (s extra : String),
        parts.get ⟨i, h1⟩ = .responseMetadata (some (.tsStr s)) extra → s ≠ "" →
        (replayFromParts parts).get ⟨i, h2⟩ = .responseMetadata (some (.tsDate s)) extra) := by
  refine ⟨by simp [replayFromParts], ?_, ?_⟩
  · intro i h1 h2
    have hm : (replayFromParts parts).get ⟨i, h2⟩ = rehydratePart (parts.get ⟨i, h1⟩) := by
      simp [replayFromParts]
    rw [hm]
    cases hp : parts.get ⟨i, h1⟩ with
    | responseMetadata ts extra =>
      cases ts with
      | none => left; rfl
      | some tv =>
        cases tv with
        | tsStr s =>
          by_cases hs : s = ""
          · left
            simp [rehydratePart, tsTruthy, hs]
          · right
            exact ⟨s, extra, hs, rfl, by simp [rehydratePart, tsTruthy, hs, dateOfTs]⟩
        | tsDate s => left; simp [rehydratePart, tsTruthy, dateOfTs]
    | textStart a => left; rfl
    | textDelta a b => left; rfl
    | finishPart a b => left; rfl
    | otherPart a b => left; rfl
  · intro i h1 h2 s extra hp hs
    have hm : (replayFromParts parts).get ⟨i, h2⟩ = rehydratePart (parts.get ⟨i, h1⟩) := by
      simp [replayFromParts]
    rw [hm, hp]
    simp [rehydratePart, tsTruthy, hs, dateOfTs]

/-- Witness for the amended C3 at a concrete captured sequence. -/
theorem replay_equals_captured_mod_rehydration_witness :
    (replayFromParts demoPartsC3).length = demoPartsC3.length
    ∧ (replayFromParts demoPartsC3).get ⟨0, by decide⟩
        = .responseMetadata (some (.tsDate "2024-01-01T00:00:00.000Z")) "m" :=
  ⟨(replay_equals_captured_mod_rehydration demoPartsC3).1,
   (replay_equals_captured_mod_rehydration demoPartsC3).2.2 0 (by decide) (by decide)
     "2024-01-01T00:00:00.000Z" "m" rfl (by decide)⟩

/-- C4 counterexample: on a stream hit whose payload has neither
`streamParts` nor a legacy `text`, `wrapStream` does not fall through to
the live `doStream()` path; it returns a simulated replay stream with an
empty chunk list. -/
theorem stream_hit_without_parts_cex :
    wrapStreamDecision "default" (some emptyPayload) = .replay []
    ∧ wrapStreamDecision "default" (some emptyPayload) ≠ .live := by
  refine ⟨rfl, ?_⟩
  intro h
  exact StreamOutcome.noConfusion h

/-- C4 amended: on a hit (any non-refresh mode) whose payload has
neither `streamParts` nor a truthy legacy `text`, `wrapStream` returns a
replayed stream whose chunk list is empty, instead of invoking the
provider's `doStream`. -/
theorem stream_hit_without_parts_replays_empty (mode : String) (c : Payload)
    (hm : mode ≠ "refresh") (hs : c.streamParts = none) (ht : textTruthy c.text = false) :
    wrapStreamDecision mode (some c) = .replay [] := by
  simp only [wrapStreamDecision, replayChunks, hs, ht, bne_iff_ne, ne_eq, hm,
    not_false_eq_true, if_true, Bool.false_eq_true, if_false]

/-- Witness for the amended C4. -/
theorem stream_hit_without_parts_replays_empty_witness :
    wrapStreamDecision "default" (some emptyPayload) = .replay [] :=
  stream_hit_without_parts_replays_empty "default" emptyPayload (by decide) rfl rfl

/-- C5: a writer whose NX acquisition of `"lock:"+id` fails performs
neither the payload-store set of `id` nor the vector upsert of `id`
(in both variants); a writer that acquired the lock performs the set
followed by the upsert. -/
theorem lock_loser_writes_nothing (id : String) (setErr upsertErr : Option String) :
    (storeInCacheSem id false setErr upsertErr).1 = [.setnxLock ("lock:" ++ id)]
    ∧ CacheOp.setPayload id ∉ (storeInCacheSem id false setErr upsertErr).1
    ∧ CacheOp.upsertVec id ∉ (storeInCacheSem id false setErr upsertErr).1
    ∧ (storeInCacheIntent id false setErr upsertErr).1 = [.setnxLock ("lock:" ++ id)]
    ∧ CacheOp.setPayload id ∉ (storeInCacheIntent id false setErr upsertErr).1
    ∧ CacheOp.upsertVec id ∉ (storeInCacheIntent id false setErr upsertErr).1
    ∧ (storeInCacheSem id true none none).1
        = [.setnxLock ("lock:" ++ id), .setPayload id, .upsertVec id, .delKey ("lock:" ++ id)]
    ∧ (storeInCacheIntent id true none none).1
        = [.setnxLock ("lock:" ++ id), .setPayload id, .upsertVec id, .delKey ("lock:" ++ id)] := by
  refine ⟨rfl, ?_, ?_, rfl, ?_, ?_, rfl, rfl⟩ <;> simp [storeInCacheSem, storeInCacheIntent]

/-- C7 counterexample: a payload-set failure on the write-back path is
rethrown after the lock release, so the awaited `storeInCache` in
`wrapGenerate` rejects the public generate call — the error is surfaced
to the caller, not swallowed. -/
theorem store_error_surfaces_cex :
    (storeInCacheIntent "k" true (some "boom") none).2.2 = some "boom"
    ∧ wrapGenerateMissResult "result" (storeInCacheIntent "k" true (some "boom") none).2.2
        = .error "boom"
    ∧ wrapGenerateMissResult "result" (storeInCacheIntent "k" true (some "boom") none).2.2
        ≠ .ok "result"
    ∧ StepEvent.cacheStoreErrorEvent ∈ (storeInCacheIntent "k" true (some "boom") none).2.1
    ∧ CacheOp.delKey "lock:k" ∈ (storeInCacheIntent "k" true (some "boom") none).1
    ∧ (storeInCacheSem "k" true (some "boom") none).2 = some "boom" := by
  refine ⟨rfl, rfl, ?_, by simp [storeInCacheIntent], by simp [storeInCacheIntent], rfl⟩
  intro h
  simp [wrapGenerateMissResult, storeInCacheIntent] at h

/-- C7 amended: on a set/upsert failure the intent variant emits
`cache-store-start` then `cache-store-error`, the lock key is released
in both variants, and the error is rethrown: the awaited write-back
rejects the caller of the public generate operation (the prompt variant
additionally emits no event at all). -/
theorem store_error_reported_released_rethrown (id e r : String) :
    (storeInCacheIntent id true (some e) none).2.1 = [.cacheStoreStart, .cacheStoreErrorEvent]
    ∧ CacheOp.delKey ("lock:" ++ id) ∈ (storeInCacheIntent id true (some e) none).1
    ∧ (storeInCacheIntent id true (some e) none).2.2 = some e
    ∧ (storeInCacheIntent id true none (some e)).2.1 = [.cacheStoreStart, .cacheStoreErrorEvent]
    ∧ CacheOp.delKey ("lock:" ++ id) ∈ (storeInCacheIntent id true none (some e)).1
    ∧ (storeInCacheIntent id true none (some e)).2.2 = some e
    ∧ CacheOp.delKey ("lock:" ++ id) ∈ (storeInCacheSem id true (some e) none).1
    ∧ (storeInCacheSem id true (some e) none).2 = some e
    ∧ (storeInCacheSem id true none (some e)).2 = some e
    ∧ wrapGenerateMissResult r (some e) = .error e := by
  refine ⟨rfl, ?_, rfl, rfl, ?_, rfl, ?_, rfl, rfl, rfl⟩ <;>
    simp [storeInCacheSem, storeInCacheIntent]

/-- C9: in the prompt variant, a `messages` field that is present and
truthy but not an array makes the cache-input derivation throw
(`canonicalizeMessages` maps over the original non-array value); the
derivation returns a text whenever `messages` is an array or is not
truthy. -/
theorem nonarray_messages_throw (useFull : Bool) (options : Js) :
    ((getField options "messages").truthy = true → (getField options "messages").isArr = false →
      getCacheKey useFull options = .error .typeErr)
    ∧ ((getField options "messages").isArr = true → ∃ s, getCacheKey useFull options = .ok s)
    ∧ ((getField options "messages").truthy = false → ∃ s, getCacheKey useFull options = .ok s) := by
  refine ⟨?_, ?_, ?_⟩
  · intro ht ha
    unfold getCacheKey
    cases hm : getField options "messages" with
    | arr l => rw [hm] at ha; simp [Js.isArr] at ha
    | undef => rw [hm] at ht; simp [Js.truthy] at ht
    | null => rw [hm] at ht; simp [Js.truthy] at ht
    | bool b =>
      rw [hm] at ht
      simp only [hm, ht, if_pos]
      simp [canonicalizeMessages]
    | num n =>
      rw [hm] at ht
      simp only [hm, ht, if_pos]
      simp [canonicalizeMessages]
    | str s =>
      rw [hm] at ht
      simp only [hm, ht, if_pos]
      simp [canonicalizeMessages]
    | obj fields =>
      rw [hm] at ht
      simp only [hm, ht, if_pos]
      simp [canonicalizeMessages]
  · intro ha
    unfold getCacheKey
    cases hm : getField options "messages" with
    | arr l =>
      simp only [hm, Js.truthy, if_pos]
      by_cases hl : !useFull && l.length > 0
      · rw [if_pos hl]
        exact ⟨_, rfl⟩
      · rw [if_neg hl]
        simp [canonicalizeMessages]
    | undef => rw [hm] at ha; simp [Js.isArr] at ha
    | null => rw [hm] at ha; simp [Js.isArr] at ha
    | bool b => rw [hm] at ha; simp [Js.isArr] at ha
    | num n => rw [hm] at ha; simp [Js.isArr] at ha
    | str s => rw [hm] at ha; simp [Js.isArr] at ha
    | obj fields => rw [hm] at ha; simp [Js.isArr] at ha
  · intro ht
    unfold getCacheKey
    simp only [ht, Bool.false_eq_true, if_false]
    by_cases hp : (getField options "prompt").truthy
    · rw [if_pos hp]
      exact ⟨_, rfl⟩
    · rw [if_neg hp]
      exact ⟨"", rfl⟩

/-- Witness for C9: `messages: "hi"` (truthy, not an array) throws,
while an array and an absent field succeed. -/
theorem nonarray_messages_throw_witness :
    getCacheKey false demoOptsC9 = .error .typeErr :=
  (nonarray_messages_throw false demoOptsC9).1 rfl rfl

/-- C10: the scope `params` hash cannot distinguish an absent
`temperature`/`topP` from one explicitly set to `undefined`: it depends
only on the property-access results, and when both access to
`temperature` and `topP` yield `undefined` the serialization drops both
fields, so the hashed text is `"{}"`. -/
theorem params_hash_ignores_undefined (o1 o2 : Js) :
    (getField o1 "temperature" = getField o2 "temperature" →
      getField o1 "topP" = getField o2 "topP" →
      (buildScope o1).params = (buildScope o2).params)
    ∧ (getField o1 "temperature" = Js.undef → getField o1 "topP" = Js.undef →
      (buildScope o1).params = sha "\x7b\x7d") := by
  constructor
  · intro h1 h2
    simp only [buildScope, h1, h2]
  · intro h1 h2
    simp only [buildScope, h1, h2]
    rfl

/-- Witness for C10: `{temperature: undefined, topP: undefined}` and
`{}` produce the same `params` hash, namely the hash of `"{}"`. -/
theorem params_hash_ignores_undefined_witness :
    (buildScope demoOptsC10a).params = (buildScope demoOptsC10b).params
    ∧ (buildScope demoOptsC10a).params = sha "\x7b\x7d" :=
  ⟨(params_hash_ignores_undefined demoOptsC10a demoOptsC10b).1 rfl rfl,
   (params_hash_ignores_undefined demoOptsC10a demoOptsC10b).2 rfl rfl⟩

/-- C6 counterexample: with `vector` explicitly provided as empty
strings and `redis` omitted while all environment variables are empty —
a configuration in which all four credentials are empty or missing —
factory validation throws the schema error, which lists only the two
vector issues and omits both missing redis credentials. -/
theorem aggregated_error_cex :
    factoryValidation urlOkDemo emptyEnv mixedCfg
        = .error ["Invalid URL: vector.url", "Too small: vector.token"]
    ∧ redisUrlMsg ∉ ["Invalid URL: vector.url", "Too small: vector.token"]
    ∧ redisTokenMsg ∉ ["Invalid URL: vector.url", "Too small: vector.token"]
    ∧ mixedCfg.redis = none
    ∧ emptyEnv.redisRestUrl = ""
    ∧ emptyEnv.redisRestToken = "" := by
  refine ⟨rfl, ?_, ?_, rfl, rfl, rfl⟩ <;> decide

/-- C6 amended: when both credential sections are omitted, factory
validation aggregates every missing env-derived credential into one
error, and each of the four messages appears exactly when the
corresponding value is empty; a section that is explicitly provided is
instead checked by the schema parse, whose error aggregates the schema
issues but does not mention credentials of an omitted section.
Thresholds outside `[0, 1]` and non-positive ttl values are rejected at
schema-parse time. -/
theorem factory_validation_behavior (urlOk : String → Bool) (env : EnvVars)
    (p : ParsedConfig) (cfg : ConfigInput) (t : Rat) :
    (factoryValidation urlOk env ⟨none, none, none, none⟩
      = (if envErrors ⟨⟨env.vectorRestUrl, env.vectorRestToken⟩,
                      ⟨env.redisRestUrl, env.redisRestToken⟩, 92 / 100, 60 * 60 * 24 * 14⟩ = []
         then .ok ⟨⟨env.vectorRestUrl, env.vectorRestToken⟩,
                   ⟨env.redisRestUrl, env.redisRestToken⟩, 92 / 100, 60 * 60 * 24 * 14⟩
         else .error (envErrors ⟨⟨env.vectorRestUrl, env.vectorRestToken⟩,
                                 ⟨env.redisRestUrl, env.redisRestToken⟩, 92 / 100, 60 * 60 * 24 * 14⟩)))
    ∧ (vectorUrlMsg ∈ envErrors p ↔ p.vector.url = "")
    ∧ (vectorTokenMsg ∈ envErrors p ↔ p.vector.token = "")
    ∧ (redisUrlMsg ∈ envErrors p ↔ p.redis.url = "")
    ∧ (redisTokenMsg ∈ envErrors p ↔ p.redis.token = "")
    ∧ (cfg.threshold = some t → t < 0 ∨ 1 < t → ∃ es, schemaParse urlOk env cfg = .error es)
    ∧ (cfg.ttl = some t → t ≤ 0 → ∃ es, schemaParse urlOk env cfg = .error es) := by
  refine ⟨?_, ?_, ?_, ?_, ?_, ?_, ?_⟩
  · have hs : schemaParse urlOk env ⟨none, none, none, none⟩
        = .ok ⟨⟨env.vectorRestUrl, env.vectorRestToken⟩,
               ⟨env.redisRestUrl, env.redisRestToken⟩, 92 / 100, 60 * 60 * 24 * 14⟩ := rfl
    by_cases h : envErrors ⟨⟨env.vectorRestUrl, env.vectorRestToken⟩,
        ⟨env.redisRestUrl, env.redisRestToken⟩, 92 / 100, 60 * 60 * 24 * 14⟩ = []
    · simp [factoryValidation, hs, validateEnvConfig, h]
    · simp [factoryValidation, hs, validateEnvConfig, h]
  · unfold envErrors
    split_ifs <;> simp_all [vectorUrlMsg, vectorTokenMsg, redisUrlMsg, redisTokenMsg]
  · unfold envErrors
    split_ifs <;> simp_all [vectorUrlMsg, vectorTokenMsg, redisUrlMsg, redisTokenMsg]
  · unfold envErrors
    split_ifs <;> simp_all [vectorUrlMsg, vectorTokenMsg, redisUrlMsg, redisTokenMsg]
  · unfold envErrors
    split_ifs <;> simp_all [vectorUrlMsg, vectorTokenMsg, redisUrlMsg, redisTokenMsg]
  · intro hthr hrange
    unfold schemaParse
    rw [hthr]
    rcases hrange with h | h
    · rw [if_neg]
      · exact ⟨_, rfl⟩
      · simp [List.isEmpty_iff, List.append_eq_nil, not_le.mpr h]
    · rw [if_neg]
      · exact ⟨_, rfl⟩
      · simp [List.isEmpty_iff, List.append_eq_nil, not_le.mpr h]
  · intro httl hle
    unfold schemaParse
    rw [httl]
    rw [if_neg]
    · exact ⟨_, rfl⟩
    · simp [List.isEmpty_iff, List.append_eq_nil, not_lt.mpr hle]

/-- Witness for the amended C6: an all-empty environment with both
sections omitted aggregates all four messages; an out-of-range
threshold and a non-positive ttl fail schema parsing. -/
theorem factory_validation_behavior_witness :
    factoryValidation urlOkDemo emptyEnv ⟨none, none, none, none⟩
      = .error [vectorUrlMsg, vectorTokenMsg, redisUrlMsg, redisTokenMsg]
    ∧ (∃ es, schemaParse urlOkDemo emptyEnv thresholdCfg = .error es)
    ∧ (∃ es, schemaParse urlOkDemo emptyEnv ttlCfg = .error es) := by
  refine ⟨?_, ?_, ?_⟩
  · have h := (factory_validation_behavior urlOkDemo emptyEnv
      ⟨⟨"", ""⟩, ⟨"", ""⟩, 92 / 100, 60 * 60 * 24 * 14⟩ ⟨none, none, none, none⟩ 0).1
    simpa [emptyEnv, envErrors] using h
  · exact (factory_validation_behavior urlOkDemo emptyEnv
      ⟨⟨"", ""⟩, ⟨"", ""⟩, 92 / 100, 60 * 60 * 24 * 14⟩ thresholdCfg 2).2.2.2.2.2.1 rfl
      (Or.inr (by norm_num))
  · exact (factory_validation_behavior urlOkDemo emptyEnv
      ⟨⟨"", ""⟩, ⟨"", ""⟩, 92 / 100, 60 * 60 * 24 * 14⟩ ttlCfg 0).2.2.2.2.2.2 rfl le_rfl

/-! ## Lemmas towards idempotence of `norm` -/

theorem collapseWs_cons_pos (c : Char) (cs : List Char) (h : jsWhitespace c = true) :
    collapseWs (c :: cs) = ' ' :: collapseWs (cs.dropWhile jsWhitespace) := by
  rw [collapseWs]
  simp [h]

theorem collapseWs_cons_neg (c : Char) (cs : List Char) (h : jsWhitespace c = false) :
    collapseWs (c :: cs) = c :: collapseWs cs := by
  rw [collapseWs]
  simp [h]

theorem collapseWs_ne_nil (c : Char) (cs : List Char) : collapseWs (c :: cs) ≠ [] := by
  by_cases h : jsWhitespace c
  · rw [collapseWs_cons_pos c cs h]
    simp
  · rw [collapseWs_cons_neg c cs (Bool.eq_false_iff.mpr h)]
    simp

theorem mem_collapseWs (x : Char) (l : List Char) (hx : x ∈ collapseWs l) :
    x = ' ' ∨ x ∈ l := by
  induction l using collapseWs.induct with
  | case1 => simp [collapseWs] at hx
  | case2 c cs h ih =>
    rw [collapseWs_cons_pos c cs h] at hx
    rcases List.mem_cons.1 hx with hx | hx
    · exact Or.inl hx
    · rcases ih hx with hx | hx
      · exact Or.inl hx
      · exact Or.inr (List.mem_cons_of_mem _ ((List.dropWhile_sublist _).subset hx))
  | case3 c cs h ih =>
    rw [collapseWs_cons_neg c cs (Bool.eq_false_iff.mpr h)] at hx
    rcases List.mem_cons.1 hx with hx | hx
    · exact Or.inr (by simp [hx])
    · rcases ih hx with hx | hx
      · exact Or.inl hx
      · exact Or.inr (List.mem_cons_of_mem _ hx)

theorem noWsHead_collapseWs (l : List Char) (h : noWsHead l = true) :
    noWsHead (collapseWs l) = true := by
  cases l with
  | nil => rw [collapseWs]; rfl
  | cons c cs =>
    cases hjs : jsWhitespace c with
    | false =>
      rw [collapseWs_cons_neg c cs hjs]
      simp [noWsHead, hjs]
    | true =>
      exfalso
      simp [noWsHead, hjs] at h

theorem noWsHead_dropWhile (l : List Char) : noWsHead (l.dropWhile jsWhitespace) = true := by
  induction l with
  | nil => rfl
  | cons c cs ih =>
    by_cases h : jsWhitespace c
    · rw [List.dropWhile_cons_of_pos h]
      exact ih
    · rw [List.dropWhile_cons_of_neg h]
      simp [noWsHead, Bool.eq_false_iff.mpr h]

theorem noWsLast_cons_cons (a b : Char) (t : List Char) :
    noWsLast (a :: b :: t) = noWsLast (b :: t) := by
  simp only [noWsLast, List.getLast?_cons_cons]

theorem noWsLast_singleton (c : Char) : noWsLast [c] = !jsWhitespace c := rfl

theorem noWsLast_dropWhile (l : List Char) (h : noWsLast l = true) :
    noWsLast (l.dropWhile jsWhitespace) = true := by
  obtain ⟨t, ht⟩ := List.dropWhile_suffix (l := l) jsWhitespace
  cases hd : l.dropWhile jsWhitespace with
  | nil => rfl
  | cons d ds =>
    rw [hd] at ht
    have hgl : (t ++ d :: ds).getLast? = (d :: ds).getLast? := by
      rw [List.getLast?_append, List.getLast?_eq_getLast (d :: ds) (by simp)]
      rfl
    rw [← ht] at h
    unfold noWsLast at h ⊢
    rw [hgl] at h
    exact h

theorem dropWhile_ne_nil_of_noWsLast (c : Char) (cs : List Char)
    (h : noWsLast (c :: cs) = true) : (c :: cs).dropWhile jsWhitespace ≠ [] := by
  intro hnil
  rw [List.dropWhile_eq_nil_iff] at hnil
  have hlast := List.getLast?_eq_getLast (c :: cs) (by simp)
  have hmem := List.getLast_mem (l := c :: cs) (by simp)
  simp only [noWsLast, hlast] at h
  rw [hnil _ hmem] at h
  simp at h

theorem noWsLast_collapseWs (l : List Char) (h : noWsLast l = true) :
    noWsLast (collapseWs l) = true := by
  induction l using collapseWs.induct with
  | case1 => rw [collapseWs]; rfl
  | case2 c cs hws ih =>
    rw [collapseWs_cons_pos c cs hws]
    cases cs with
    | nil =>
      exfalso
      rw [noWsLast_singleton, hws] at h
      simp at h
    | cons d ds =>
      rw [noWsLast_cons_cons] at h
      have hnn := dropWhile_ne_nil_of_noWsLast d ds h
      have ihr := ih (noWsLast_dropWhile (d :: ds) h)
      cases hdw : (d :: ds).dropWhile jsWhitespace with
      | nil => exact absurd hdw hnn
      | cons e es =>
        rw [hdw] at ihr
        cases hcw : collapseWs (e :: es) with
        | nil => exact absurd hcw (collapseWs_ne_nil e es)
        | cons f fs =>
          rw [hcw] at ihr
          rw [noWsLast_cons_cons]
          exact ihr
  | case3 c cs hws ih =>
    rw [collapseWs_cons_neg c cs (Bool.eq_false_iff.mpr hws)]
    cases cs with
    | nil =>
      rw [collapseWs]
      exact h
    | cons d ds =>
      rw [noWsLast_cons_cons] at h
      have ihr := ih h
      cases hcw : collapseWs (d :: ds) with
      | nil => exact absurd hcw (collapseWs_ne_nil d ds)
      | cons f fs =>
        rw [hcw] at ihr
        rw [noWsLast_cons_cons]
        exact ihr

theorem goodRun_collapseWs (l : List Char) : goodRun (collapseWs l) = true := by
  induction l using collapseWs.induct with
  | case1 => rw [collapseWs]; rfl
  | case2 c cs hws ih =>
    rw [collapseWs_cons_pos c cs hws]
    have hh : noWsHead (collapseWs (cs.dropWhile jsWhitespace)) = true :=
      noWsHead_collapseWs _ (noWsHead_dropWhile cs)
    have hsp : jsWhitespace ' ' = true := by decide
    simp [goodRun, hsp, hh, ih]
  | case3 c cs hws ih =>
    rw [collapseWs_cons_neg c cs (Bool.eq_false_iff.mpr hws)]
    simp [goodRun, hws, ih]

theorem collapseWs_eq_self_of_goodRun (l : List Char) (h : goodRun l = true) :
    collapseWs l = l := by
  induction l using collapseWs.induct with
  | case1 => rw [collapseWs]
  | case2 c cs hws ih =>
    simp only [goodRun, hws, if_true, Bool.and_eq_true, beq_iff_eq] at h
    obtain ⟨⟨hc, hhd⟩, hg⟩ := h
    have hdw : cs.dropWhile jsWhitespace = cs := by
      cases cs with
      | nil => rfl
      | cons d ds =>
        simp only [noWsHead, List.head?_cons] at hhd
        have hd : jsWhitespace d = false := by simpa using hhd
        rw [List.dropWhile_cons_of_neg (by simp [hd])]
    have hrec := ih (by rw [hdw]; exact hg)
    rw [hdw] at hrec
    rw [collapseWs_cons_pos c cs hws, hdw, hrec, hc]
  | case3 c cs hws ih =>
    simp only [goodRun, hws, if_false, Bool.true_and] at h
    rw [collapseWs_cons_neg c cs (Bool.eq_false_iff.mpr hws), ih h]

theorem dropWhile_eq_self_of_noWsHead (l : List Char) (h : noWsHead l = true) :
    l.dropWhile jsWhitespace = l := by
  cases l with
  | nil => rfl
  | cons c cs =>
    simp only [noWsHead, List.head?_cons] at h
    have hc : jsWhitespace c = false := by simpa using h
    rw [List.dropWhile_cons_of_neg (by simp [hc])]

theorem trimChars_eq_self (l : List Char) (h1 : noWsHead l = true) (h2 : noWsLast l = true) :
    trimChars l = l := by
  unfold trimChars
  rw [dropWhile_eq_self_of_noWsHead l h1]
  have hrev : noWsHead l.reverse = true := by
    unfold noWsHead
    rw [List.head?_reverse]
    exact h2
  rw [dropWhile_eq_self_of_noWsHead l.reverse hrev, List.reverse_reverse]

theorem noWsHead_trimChars (l : List Char) : noWsHead (trimChars l) = true := by
  unfold trimChars
  have hrd : ((l.dropWhile jsWhitespace).reverse.dropWhile jsWhitespace).reverse
      = List.rdropWhile jsWhitespace (l.dropWhile jsWhitespace) := rfl
  rw [hrd]
  obtain ⟨t, ht⟩ := List.rdropWhile_prefix jsWhitespace (l.dropWhile jsWhitespace)
  cases hr : List.rdropWhile jsWhitespace (l.dropWhile jsWhitespace) with
  | nil => rfl
  | cons a as =>
    have hm2 : noWsHead (l.dropWhile jsWhitespace) = true := noWsHead_dropWhile l
    rw [hr] at ht
    rw [← ht] at hm2
    simp only [noWsHead, List.cons_append, List.head?_cons] at hm2 ⊢
    exact hm2

theorem noWsLast_trimChars (l : List Char) : noWsLast (trimChars l) = true := by
  unfold trimChars
  have hrd : ((l.dropWhile jsWhitespace).reverse.dropWhile jsWhitespace).reverse
      = List.rdropWhile jsWhitespace (l.dropWhile jsWhitespace) := rfl
  rw [hrd]
  cases hr : List.rdropWhile jsWhitespace (l.dropWhile jsWhitespace) with
  | nil => rfl
  | cons a as =>
    have hne : List.rdropWhile jsWhitespace (l.dropWhile jsWhitespace) ≠ [] := by
      rw [hr]
      simp
    have hlast := List.rdropWhile_last_not jsWhitespace (l.dropWhile jsWhitespace) hne
    rw [← hr]
    unfold noWsLast
    rw [List.getLast?_eq_getLast _ hne]
    simpa using hlast

set_option maxHeartbeats 12000000 in
theorem lowerTable_values_fixed :
    ∀ e ∈ lowerTableC, ∀ b ∈ e.2, lowerFixedC b = true := by
  simp only [lowerTableC, List.forall_mem_append]
  and_intros <;> decide

set_option maxHeartbeats 12000000 in
theorem lowerFind_complete :
    ∀ e ∈ lowerTableC, lowerFind e.1 = some e.2 := by
  simp only [lowerTableC, List.forall_mem_append]
  and_intros <;> decide

set_option maxHeartbeats 2000000 in
theorem lowerTable_values_ne_nil :
    ∀ e ∈ lowerTableC, e.2 ≠ [] := by
  simp only [lowerTableC, List.forall_mem_append]
  and_intros <;> decide

set_option maxHeartbeats 4000000 in
theorem lowerTable_values_not_ws :
    ∀ e ∈ lowerTableC, ∀ b ∈ e.2, jsWhitespace b = false := by
  simp only [lowerTableC, List.forall_mem_append]
  and_intros <;> decide

set_option maxHeartbeats 16000000 in
theorem lowerFind_some_mem (c : Char) (bs : List Char) (h : lowerFind c = some bs) :
    (c, bs) ∈ lowerTableC := by
  unfold lowerFind at h
  rw [Option.map_eq_some'] at h
  obtain ⟨e, he, hval⟩ := h
  have hval2 : e.2 = bs := hval
  repeat' split at he
  all_goals
    have hk := List.find?_some he
    have hm := List.mem_of_find?_eq_some he
    simp only [beq_iff_eq] at hk
    rw [← hk, ← hval2]
    have he2 : (e.1, e.2) = e := rfl
    rw [he2]
    simp [lowerTableC, List.mem_append, hm]

theorem lowerBlock_ne_nil (sigmaCtx : List Char → List Char → Bool) (pre : List Char)
    (c : Char) (cs : List Char) : lowerBlock sigmaCtx pre c cs ≠ [] := by
  unfold lowerBlock
  split
  · simp
  · unfold lowerMappingC
    cases hf : lowerFind c with
    | none => simp
    | some bs =>
      simp only [Option.getD_some]
      exact lowerTable_values_ne_nil _ (lowerFind_some_mem c bs hf)

theorem lowerBlock_fixed (sigmaCtx : List Char → List Char → Bool) (pre : List Char)
    (c : Char) (cs : List Char) :
    ∀ x ∈ lowerBlock sigmaCtx pre c cs, lowerFixedC x = true := by
  intro x hx
  unfold lowerBlock at hx
  split at hx
  · simp only [List.mem_singleton] at hx
    rw [hx]
    decide
  · unfold lowerMappingC at hx
    cases hf : lowerFind c with
    | none =>
      rw [hf] at hx
      simp only [Option.getD_none, List.mem_singleton] at hx
      subst hx
      unfold lowerFixedC
      rw [hf]
      simp only [Option.isNone_none, Bool.true_and, bne_iff_ne, ne_eq, decide_eq_true_eq]
      intro heq
      rw [heq] at hf
      exact absurd hf (by decide)
    | some bs =>
      rw [hf] at hx
      simp only [Option.getD_some] at hx
      exact lowerTable_values_fixed _ (lowerFind_some_mem c bs hf) x hx

theorem lowerBlock_not_ws (sigmaCtx : List Char → List Char → Bool) (pre : List Char)
    (c : Char) (cs : List Char) (hc : jsWhitespace c = false) :
    ∀ x ∈ lowerBlock sigmaCtx pre c cs, jsWhitespace x = false := by
  intro x hx
  unfold lowerBlock at hx
  split at hx
  · simp only [List.mem_singleton] at hx
    rw [hx]
    decide
  · unfold lowerMappingC at hx
    cases hf : lowerFind c with
    | none =>
      rw [hf] at hx
      simp only [Option.getD_none, List.mem_singleton] at hx
      rw [hx]
      exact hc
    | some bs =>
      rw [hf] at hx
      simp only [Option.getD_some] at hx
      exact lowerTable_values_not_ws _ (lowerFind_some_mem c bs hf) x hx

theorem toLowerGo_ne_nil (sigmaCtx : List Char → List Char → Bool) (pre : List Char)
    (c : Char) (cs : List Char) : toLowerGo sigmaCtx pre (c :: cs) ≠ [] := by
  simp only [toLowerGo]
  intro h
  rcases List.append_eq_nil.mp h with ⟨h1, -⟩
  exact lowerBlock_ne_nil sigmaCtx pre c cs h1

theorem mem_toLowerGo_fixed (sigmaCtx : List Char → List Char → Bool) :
    ∀ (l pre : List Char), ∀ x ∈ toLowerGo sigmaCtx pre l, lowerFixedC x = true := by
  intro l
  induction l with
  | nil =>
    intro pre x hx
    simp [toLowerGo] at hx
  | cons c cs ih =>
    intro pre x hx
    simp only [toLowerGo, List.mem_append] at hx
    rcases hx with hx | hx
    · exact lowerBlock_fixed sigmaCtx pre c cs x hx
    · exact ih (pre ++ [c]) x hx

theorem toLowerGo_fixed_eq (sigmaCtx : List Char → List Char → Bool) :
    ∀ (l pre : List Char), (∀ x ∈ l, lowerFixedC x = true) → toLowerGo sigmaCtx pre l = l := by
  intro l
  induction l with
  | nil =>
    intro pre h
    simp [toLowerGo]
  | cons c cs ih =>
    intro pre h
    have hc := h c (by simp)
    unfold lowerFixedC at hc
    rw [Bool.and_eq_true] at hc
    obtain ⟨hnone, hne⟩ := hc
    have hbeq : (c == 'Σ') = false := by
      cases hb : c == 'Σ' with
      | false => rfl
      | true => simp [bne, hb] at hne
    rw [Option.isNone_iff_eq_none] at hnone
    simp only [toLowerGo, lowerBlock, hbeq, Bool.false_and, Bool.false_eq_true, if_false]
    unfold lowerMappingC
    rw [hnone]
    simp only [Option.getD_none, List.singleton_append, List.cons.injEq, true_and]
    exact ih (pre ++ [c]) (fun x hx => h x (List.mem_cons_of_mem _ hx))

theorem noWsHead_toLowerGo (sigmaCtx : List Char → List Char → Bool) (pre l : List Char)
    (h : noWsHead l = true) : noWsHead (toLowerGo sigmaCtx pre l) = true := by
  cases l with
  | nil => simp [toLowerGo, noWsHead]
  | cons c cs =>
    have hc : jsWhitespace c = false := by
      simp only [noWsHead, List.head?_cons] at h
      simpa using h
    simp only [toLowerGo]
    cases hb : lowerBlock sigmaCtx pre c cs with
    | nil => exact absurd hb (lowerBlock_ne_nil sigmaCtx pre c cs)
    | cons b0 bs =>
      have hb0 : jsWhitespace b0 = false :=
        lowerBlock_not_ws sigmaCtx pre c cs hc b0 (by rw [hb]; simp)
      simp [noWsHead, List.cons_append, List.head?_cons, hb0]

theorem noWsLast_append_right (l1 l2 : List Char) (h2 : l2 ≠ []) :
    noWsLast (l1 ++ l2) = noWsLast l2 := by
  unfold noWsLast
  rw [List.getLast?_append, List.getLast?_eq_getLast l2 h2]
  rfl

theorem noWsLast_of_all_not_ws (l : List Char) (h : ∀ x ∈ l, jsWhitespace x = false) :
    noWsLast l = true := by
  cases l with
  | nil => rfl
  | cons c cs =>
    have hne : c :: cs ≠ [] := by simp
    unfold noWsLast
    rw [List.getLast?_eq_getLast _ hne]
    simp [h _ (List.getLast_mem hne)]

theorem noWsLast_toLowerGo (sigmaCtx : List Char → List Char → Bool) :
    ∀ (l pre : List Char), noWsLast l = true → noWsLast (toLowerGo sigmaCtx pre l) = true := by
  intro l
  induction l with
  | nil =>
    intro pre h
    simp [toLowerGo, noWsLast]
  | cons c cs ih =>
    intro pre h
    cases cs with
    | nil =>
      have hc : jsWhitespace c = false := by
        rw [noWsLast_singleton] at h
        simpa using h
      simp only [toLowerGo, List.append_nil]
      exact noWsLast_of_all_not_ws _ (lowerBlock_not_ws sigmaCtx pre c [] hc)
    | cons d ds =>
      rw [noWsLast_cons_cons] at h
      show noWsLast (lowerBlock sigmaCtx pre c (d :: ds)
          ++ toLowerGo sigmaCtx (pre ++ [c]) (d :: ds)) = true
      rw [noWsLast_append_right _ _ (toLowerGo_ne_nil sigmaCtx (pre ++ [c]) d ds)]
      exact ih (pre ++ [c]) h

theorem normList_idem (sigmaCtx : List Char → List Char → Bool) (l : List Char) :
    normList sigmaCtx (normList sigmaCtx l) = normList sigmaCtx l := by
  have hfix : ∀ x ∈ normList sigmaCtx l, lowerFixedC x = true := by
    intro x hx
    rcases mem_collapseWs x (toLowerGo sigmaCtx [] (trimChars l)) hx with hx2 | hx2
    · rw [hx2]
      decide
    · exact mem_toLowerGo_fixed sigmaCtx (trimChars l) [] x hx2
  have hh : noWsHead (normList sigmaCtx l) = true :=
    noWsHead_collapseWs _ (noWsHead_toLowerGo sigmaCtx [] _ (noWsHead_trimChars l))
  have hl2 : noWsLast (normList sigmaCtx l) = true :=
    noWsLast_collapseWs _ (noWsLast_toLowerGo sigmaCtx _ [] (noWsLast_trimChars l))
  have hg := goodRun_collapseWs (toLowerGo sigmaCtx [] (trimChars l))
  show collapseWs (toLowerGo sigmaCtx [] (trimChars (normList sigmaCtx l)))
      = normList sigmaCtx l
  rw [trimChars_eq_self _ hh hl2, toLowerGo_fixed_eq sigmaCtx _ [] hfix]
  exact collapseWs_eq_self_of_goodRun _ hg

/-- C8: the normalization `norm` — trim, full Unicode lowercase (for any
Final_Sigma context test), collapse each run of whitespace to one ASCII
space — is idempotent: `norm (norm x) = norm x` for every string `x`. -/
theorem norm_idempotent (sigmaCtx : List Char → List Char → Bool) (s : String) :
    norm sigmaCtx (norm sigmaCtx s) = norm sigmaCtx s := by
  show String.mk (normList sigmaCtx (normList sigmaCtx s.data))
      = String.mk (normList sigmaCtx s.data)
  rw [normList_idem]
